import Mathlib

/-! Verification of `pkg/kubernetes/pod/pod.go`.

A shallow embedding of the pod lifecycle manager (`SimplePodContext`) and of the
remote command executor (`SimplePodExecutor`).

* Go `error` values are modelled by `GoError`; a nil error is `none`.
* Go `map[string]string` values are association lists, the nil map being `none`.
* The cluster is a script of responses (`Cluster`); the requests issued so far are
  recorded in an explicit client state (`Client`).
* Real time is replaced by a number of probe invocations that fit in the wait timeout.
-/

namespace Diki

/-! ## Go errors -/

/-- A Go `error` value.  `leaf` is an error produced outside this package (API server,
transport, standard library): its text and what `apierrors.IsNotFound` reports on it.
`errorf pre inner post` is `fmt.Errorf` with one `%w` verb, `join` is `errors.Join`. -/
inductive GoError where
  | leaf (text : String) (notFound : Bool)
  | errorf (pre : String) (inner : GoError) (post : String)
  | join (a b : GoError)
  deriving DecidableEq, Repr

namespace GoError

/-- The method `Error()`. -/
def Error : GoError → String
  | leaf text _ => text
  | errorf pre inner post => pre ++ inner.Error ++ post
  | join a b => a.Error ++ "\n" ++ b.Error

/-- The chain walked by `errors.Is` / `errors.As`: `outer` is `target` or wraps it. -/
def Wraps : GoError → GoError → Bool
  | leaf text nf, target => decide (leaf text nf = target)
  | errorf pre inner post, target =>
      decide (errorf pre inner post = target) || inner.Wraps target
  | join a b, target => decide (join a b = target) || a.Wraps target || b.Wraps target

end GoError

/-- The function `apierrors.IsNotFound`, which inspects the error chain.  The errors that
`client.Get` and `client.Delete` return are leaves, and `fmt.Errorf` with `%w` keeps the
answer of the wrapped error.  For an `errors.Join` the real function answers for the first
API status in the chain; the model, which does not record which leaves are API statuses,
answers true as soon as one member is not-found. -/
def IsNotFound : GoError → Bool
  | .leaf _ nf => nf
  | .errorf _ inner _ => IsNotFound inner
  | .join a b => IsNotFound a || IsNotFound b

/-- The function `fmt.Errorf` called without a `%w` verb: a fresh error with that text. -/
def errorNew (text : String) : GoError := .leaf text false

/-! ## Go maps -/

/-- A Go `map[string]string`: `none` is the nil map, `some entries` a non-nil map. -/
abbrev GoMap := Option (List (String × String))

/-- The map read `v, ok := m[k]`; a nil map has no key. -/
def GoMap.get (m : GoMap) (k : String) : Option String :=
  match m with
  | none => none
  | some entries => entries.lookup k

/-- The map write `m[k] = v` on the entries of a non-nil map. -/
def mapStore : List (String × String) → String → String → List (String × String)
  | [], k, v => [(k, v)]
  | (k', v') :: rest, k, v =>
      if k' = k then (k, v) :: rest else (k', v') :: mapStore rest k v

/-- The entries visited by `for k, v := range m`; ranging over a nil map visits nothing. -/
def GoMap.range (m : GoMap) : List (String × String) :=
  match m with
  | none => []
  | some entries => entries

/-! ## Pods -/

/-- The part of `corev1.Pod` that `Create` reads or writes. -/
structure Pod where
  Name : String
  Namespace : String
  Labels : GoMap
  deriving DecidableEq, Repr

/-- Lines 78-86 of `Create`: a nil label map is replaced by an empty one, then every
additional label whose key is not yet set is stored. -/
def mergeLabels (pod : Pod) (additional : GoMap) : Pod :=
  let labels : List (String × String) :=
    match pod.Labels with
    | none => []
    | some entries => entries
  let merged := additional.range.foldl
    (fun acc (entry : String × String) =>
      match acc.lookup entry.1 with
      | some _ => acc
      | none => mapStore acc entry.1 entry.2)
    labels
  { pod with Labels := some merged }

/-- The phase constant `corev1.PodRunning`. -/
def PodRunning : String := "Running"

/-- What a successful `Get` writes back into the pod object, as far as the readiness
probe reads it: the phase, and the outcome of `json.Marshal(pod.Status.Conditions)`. -/
structure ObservedPod where
  Phase : String
  conditionsJSON : Except GoError String

/-- The method `String()` of the object key of a pod: `<namespace>/<name>`. -/
def podKey (name ns : String) : String := ns ++ "/" ++ name

/-! ## The cluster and the client -/

/-- The behaviour of the cluster during one call of `Create` or `Delete`: the answer to
the creation request (on success the object as the server stored it, which the client
writes back into the pod), the answer to the deletion request, the answer to the n-th
`Get` request, and `retries`, the number of probe invocations after the first one that
fit before the wait timeout elapses. -/
structure Cluster where
  createResp : Pod → Except GoError Pod
  deleteResp : String → String → Option GoError
  getResp : Nat → String → String → Except GoError ObservedPod
  retries : Nat

/-- The requests the client has issued so far. -/
structure Client where
  created : List Pod
  deleted : List (String × String)
  gets : Nat
  deriving DecidableEq, Repr

/-- The method `client.Create`. -/
def Client.Create (cl : Cluster) (pod : Pod) (st : Client) : Client × Except GoError Pod :=
  ({ st with created := st.created ++ [pod] }, cl.createResp pod)

/-- The method `client.Delete`. -/
def Client.Delete (cl : Cluster) (name ns : String) (st : Client) :
    Client × Option GoError :=
  ({ st with deleted := st.deleted ++ [(name, ns)] }, cl.deleteResp name ns)

/-- The method `client.Get`. -/
def Client.Get (cl : Cluster) (name ns : String) (st : Client) :
    Client × Except GoError ObservedPod :=
  ({ st with gets := st.gets + 1 }, cl.getResp st.gets name ns)

/-! ## The retry scheduler -/

/-- The pair `(done, err)` a probe returns. -/
abbrev ProbeResult := Bool × Option GoError

/-- Modelled from the spec: `retry.Ok` of the gardener retry package, done=true, err=nil. -/
def retry.Ok : ProbeResult := (true, none)

/-- Modelled from the spec: `retry.SevereError`, done=true, err=E. -/
def retry.SevereError (e : GoError) : ProbeResult := (true, some e)

/-- Modelled from the spec: `retry.MinorError`, done=false, err=E. -/
def retry.MinorError (e : GoError) : ProbeResult := (false, some e)

/-- Modelled from the spec: the error `retry.Until` returns at the deadline, the last
MinorError wrapped to indicate the timeout. -/
def retryError (last : Option GoError) : GoError :=
  match last with
  | some e => .errorf "retry failed with context deadline exceeded, last error: " e ""
  | none => .leaf "retry failed with context deadline exceeded" false

/-- Modelled from the spec: `retry.Until` of the gardener retry package, which is not part
of the sources.  The probe is invoked immediately and then once per interval until it
reports done (Ok or SevereError: its error is returned) or the deadline elapses (the last
MinorError is returned wrapped).  The first argument is the number of invocations after
the first that fit before the deadline, the second the last MinorError seen. -/
def Until {σ : Type} (probe : σ → σ × ProbeResult) : Nat → Option GoError → σ → σ × Option GoError
  | 0, last, s =>
      match probe s with
      | (s', true, err) => (s', err)
      | (s', false, err) => (s', some (retryError (err <|> last)))
  | n + 1, last, s =>
      match probe s with
      | (s', true, err) => (s', err)
      | (s', false, err) => Until probe n (err <|> last) s'

/-! ## SimplePodContext -/

/-- The struct `SimplePodExecutor`; the durations are in seconds. -/
structure SimplePodExecutor where
  name : String
  ns : String
  WaitInterval : Nat
  WaitTimeout : Nat
  deriving DecidableEq, Repr

/-- The struct `SimplePodContext`; the durations are in seconds. -/
structure SimplePodContext where
  AdditionalPodLabels : GoMap
  WaitInterval : Nat
  WaitTimeout : Nat

/-- The function `NewSimplePodContext`. -/
def NewSimplePodContext (additionalPodLabels : GoMap) : SimplePodContext × Option GoError :=
  ({ AdditionalPodLabels := additionalPodLabels, WaitInterval := 2, WaitTimeout := 60 }, none)

/-- The function `NewPodExecutor`. -/
def NewPodExecutor (name ns : String) : Option SimplePodExecutor × Option GoError :=
  (some { name := name, ns := ns, WaitInterval := 3, WaitTimeout := 15 }, none)

/-- The probe passed to `retry.Until` in `waitPodHealthy`. -/
def waitPodHealthyProbe (cl : Cluster) (name ns : String) (st : Client) :
    Client × ProbeResult :=
  match Client.Get cl name ns st with
  | (st', .error err) => (st', retry.SevereError err)
  | (st', .ok pod) =>
      if pod.Phase ≠ PodRunning then
        match pod.conditionsJSON with
        | .error err =>
            (st', retry.MinorError (.errorf
              ("failed parsing pod " ++ podKey name ns ++ " status conditions: ") err ""))
        | .ok conditions =>
            (st', retry.MinorError (errorNew
              ("pod " ++ podKey name ns ++ " is not yet Running, pod conditions: "
                ++ conditions)))
      else
        (st', retry.Ok)

/-- The method `waitPodHealthy`. -/
def waitPodHealthy (cl : Cluster) (name ns : String) (st : Client) :
    Client × Option GoError :=
  Until (waitPodHealthyProbe cl name ns) cl.retries none st

/-- The probe passed to `retry.Until` in `waitPodDeleted`. -/
def waitPodDeletedProbe (cl : Cluster) (name ns : String) (st : Client) :
    Client × ProbeResult :=
  match Client.Get cl name ns st with
  | (st', .error err) =>
      if IsNotFound err then (st', retry.Ok) else (st', retry.SevereError err)
  | (st', .ok _) =>
      (st', retry.MinorError (errorNew ("pod " ++ podKey name ns ++ " is not yet deleted")))

/-- The method `waitPodDeleted`. -/
def waitPodDeleted (cl : Cluster) (name ns : String) (st : Client) :
    Client × Option GoError :=
  Until (waitPodDeletedProbe cl name ns) cl.retries none st

/-- The method `SimplePodContext.Create`: the returned executor and error, with the client
state after the call. -/
def Create (cl : Cluster) (spc : SimplePodContext) (podConstructorFn : Unit → Pod)
    (st : Client) : Client × Option SimplePodExecutor × Option GoError :=
  let pod := mergeLabels (podConstructorFn ()) spc.AdditionalPodLabels
  match Client.Create cl pod st with
  | (st1, .error err) => (st1, none, some err)
  | (st1, .ok stored) =>
      let name := stored.Name
      let ns := stored.Namespace
      match waitPodHealthy cl name ns st1 with
      | (st2, some err) => (st2, none, some err)
      | (st2, none) => (st2, NewPodExecutor name ns)

/-- The method `SimplePodContext.Delete`: the returned error, with the client state after
the call. -/
def Delete (cl : Cluster) (name ns : String) (st : Client) : Client × Option GoError :=
  match Client.Delete cl name ns st with
  | (st1, some err) => if IsNotFound err then (st1, none) else (st1, some err)
  | (st1, none) => waitPodDeleted cl name ns st1

/-- The client before any request. -/
def Client.fresh : Client := { created := [], deleted := [], gets := 0 }

/-! ## SimplePodExecutor -/

/-- What one call of `executor.StreamWithContext` does: the error it returns and the bytes
it writes to the stdout and stderr writers. -/
structure StreamOutcome where
  err : Option GoError
  stdout : String
  stderr : String

/-- The surroundings of one call of `Execute`: the outcomes of the four constructors it
calls first, the outcome of the n-th stream call for a pod, command and stdin payload,
the number of probe invocations after the first that fit before the wait timeout, and
the standard-library functions `strings.ToLower` and `strings.TrimSpace`. -/
structure ExecEnv where
  newForConfig : Option GoError
  newWebSocketExecutor : Option GoError
  newSPDYExecutor : Option GoError
  newFallbackExecutor : Option GoError
  stream : SimplePodExecutor → Nat → String → String → StreamOutcome
  retries : Nat
  ToLower : String → String
  TrimSpace : String → String

/-- The function `strings.ToLower` on ASCII text. -/
def asciiToLower (s : String) : String := String.mk (s.data.map Char.toLower)

/-- The function `strings.TrimSpace` on ASCII text. -/
def asciiTrimSpace (s : String) : String :=
  String.mk ((s.data.dropWhile Char.isWhitespace).reverse.dropWhile Char.isWhitespace).reverse

/-- The function `strings.Contains`: `substr` occurs in `s` as a contiguous block. -/
def Contains (s substr : String) : Bool := decide (substr.data <:+: s.data)

/-- The slice literal `retryableErrorSubstrings` of `Execute`. -/
def retryableErrorSubstrings : List String :=
  ["timeout occurred", "operation timed out", "connection reset by peer",
    "context deadline exceeded"]

/-- The loop over `retryableErrorSubstrings` in `Execute` (lines 198-207): whether the
trimmed, lower-cased text of the stream error contains one of them. -/
def isRetryable (env : ExecEnv) (err : GoError) : Bool :=
  let errMessage := env.TrimSpace (env.ToLower err.Error)
  retryableErrorSubstrings.any (fun retryableErrorSubstring =>
    Contains errMessage retryableErrorSubstring)

/-- The two `bytes.Buffer` variables of `Execute`, declared before the retry loop, with the
number of stream calls made so far. -/
structure ExecState where
  stdout : String
  stderr : String
  attempts : Nat
  deriving DecidableEq, Repr

/-- The function `io.ReadAll` on a `bytes.Buffer`: the bytes read, the emptied buffer and
the error, which a buffer never produces. -/
def readAll (buffer : String) : String × String × Option GoError := (buffer, "", none)

/-- The probe passed to `retry.Until` in `Execute` (lines 176-213). -/
def executeProbe (env : ExecEnv) (spe : SimplePodExecutor) (command commandArg : String)
    (s : ExecState) : ExecState × ProbeResult :=
  let out := env.stream spe s.attempts command commandArg
  match readAll (s.stderr ++ out.stderr) with
  | (stderrByte, stderrRest, otherErr) =>
    let s' : ExecState :=
      { stdout := s.stdout ++ out.stdout, stderr := stderrRest, attempts := s.attempts + 1 }
    match out.err, otherErr with
    | some err, some other => (s', retry.SevereError (.join err other))
    | none, some other => (s', retry.SevereError other)
    | some err, none =>
        if stderrByte.length > 0 then
          (s', retry.SevereError (.errorf "err: " err
            (", command " ++ command ++ " " ++ commandArg ++ " stderr output: " ++ stderrByte)))
        else
          if isRetryable env err then
            (s', retry.MinorError (.errorf "err: " err
              (", command " ++ command ++ " " ++ commandArg)))
          else
            (s', retry.SevereError (.errorf "err: " err
              (", command " ++ command ++ " " ++ commandArg)))
    | none, none =>
        if stderrByte.length > 0 then
          (s', retry.SevereError (errorNew
            ("command " ++ command ++ " " ++ commandArg ++ " stderr output: " ++ stderrByte)))
        else
          (s', retry.Ok)

/-- The buffers as `Execute` declares them. -/
def ExecState.fresh : ExecState := { stdout := "", stderr := "", attempts := 0 }

/-- The retry loop of `Execute` (lines 173-213): the buffers after the loop and the error
`retry.Until` returns. -/
def executeLoop (env : ExecEnv) (spe : SimplePodExecutor) (command commandArg : String) :
    ExecState × Option GoError :=
  Until (executeProbe env spe command commandArg) env.retries none ExecState.fresh

/-- The method `SimplePodExecutor.Execute`. -/
def Execute (env : ExecEnv) (spe : SimplePodExecutor) (command commandArg : String) :
    String × Option GoError :=
  match env.newForConfig with
  | some err => ("", some err)
  | none =>
  match env.newWebSocketExecutor with
  | some err => ("", some (.errorf "failed to initialize the websocket executor: " err ""))
  | none =>
  match env.newSPDYExecutor with
  | some err => ("", some (.errorf "failed to initialized the spdy command exector: " err ""))
  | none =>
  match env.newFallbackExecutor with
  | some err => ("", some (.errorf "failed to initialize the command executor: " err ""))
  | none =>
  match executeLoop env spe command commandArg with
  | (_, some err) => ("", some err)
  | (s, none) =>
      match readAll s.stdout with
      | (_, _, some err) => ("", some err)
      | (result, _, none) => (result, none)

/-- The state reached after `n` probe invocations, whatever they report. -/
def probeIter {σ : Type} (probe : σ → σ × ProbeResult) : Nat → σ → σ
  | 0, s => s
  | n + 1, s => probeIter probe n (probe s).1

/-- The buffers and the attempt counter before attempt `i` of a run of `Execute`. -/
def attemptState (env : ExecEnv) (spe : SimplePodExecutor) (command commandArg : String)
    (i : Nat) : ExecState :=
  probeIter (executeProbe env spe command commandArg) i ExecState.fresh

/-- What the probe reports in attempt `i` of a run of `Execute`. -/
def attemptResult (env : ExecEnv) (spe : SimplePodExecutor) (command commandArg : String)
    (i : Nat) : ProbeResult :=
  (executeProbe env spe command commandArg (attemptState env spe command commandArg i)).2

/-- The bytes written to the stdout writer by the first `k` stream calls of a run of
`Execute`, in order. -/
def stdoutThrough (env : ExecEnv) (spe : SimplePodExecutor) (command commandArg : String) :
    Nat → String
  | 0 => ""
  | k + 1 => stdoutThrough env spe command commandArg k ++
      (env.stream spe k command commandArg).stdout

/-- The four constructors `Execute` calls before the retry loop all succeed. -/
def ExecEnv.setupOk (env : ExecEnv) : Prop :=
  env.newForConfig = none ∧ env.newWebSocketExecutor = none ∧ env.newSPDYExecutor = none ∧
    env.newFallbackExecutor = none

/-- An environment in which the four constructors succeed, with the ASCII string
functions. -/
def ExecEnv.simple (stream : SimplePodExecutor → Nat → String → String → StreamOutcome)
    (retries : Nat) : ExecEnv :=
  { newForConfig := none, newWebSocketExecutor := none, newSPDYExecutor := none,
    newFallbackExecutor := none, stream := stream, retries := retries,
    ToLower := asciiToLower, TrimSpace := asciiTrimSpace }

/-- A transient transport error. -/
def connReset : GoError := .leaf "read tcp: Connection reset by peer" false

/-- A script of two attempts: the first writes `partial` to stdout and fails with a
connection reset, every later one writes `full` and succeeds. -/
def flakyStream : SimplePodExecutor → Nat → String → String → StreamOutcome :=
  fun _ n _ _ =>
    if n = 0 then { err := some connReset, stdout := "partial", stderr := "" }
    else { err := none, stdout := "full", stderr := "" }

/-- A script in which the first attempt fails with a connection reset and the second one
fails with a connection reset too, after the command wrote to stderr. -/
def deniedStream : SimplePodExecutor → Nat → String → String → StreamOutcome :=
  fun _ n _ _ =>
    if n = 0 then { err := some connReset, stdout := "", stderr := "" }
    else { err := some connReset, stdout := "", stderr := "permission denied" }

/-- A script in which the first attempt prints `uid=0` and then runs into the deadline of
the stream, and every later attempt prints `uid=0` and succeeds. -/
def slowStream : SimplePodExecutor → Nat → String → String → StreamOutcome :=
  fun _ n _ _ =>
    if n = 0 then
      { err := some (.leaf "context deadline exceeded" false), stdout := "uid=0", stderr := "" }
    else { err := none, stdout := "uid=0", stderr := "" }

/-- The executor used in the examples. -/
def demoExecutor : SimplePodExecutor :=
  { name := "diki-pod", ns := "kube-system", WaitInterval := 3, WaitTimeout := 15 }

/-! ## Example clusters -/

/-- The API error for a pod that does not exist. -/
def notFoundErr : GoError := .leaf "pods diki-pod not found" true

/-- An API error that is not a not-found error. -/
def forbiddenErr : GoError := .leaf "pods diki-pod is forbidden" false

/-- A pod observed before it is scheduled. -/
def pendingPod : ObservedPod := { Phase := "Pending", conditionsJSON := .ok "[]" }

/-- A pod observed running. -/
def runningPod : ObservedPod := { Phase := "Running", conditionsJSON := .ok "[]" }

/-- The pod the example constructor returns, with nil labels. -/
def demoPod : Pod := { Name := "diki-pod", Namespace := "kube-system", Labels := none }

/-- A cluster that accepts the pod, reports it Pending once and Running afterwards. -/
def readyAfterOne : Cluster :=
  { createResp := fun pod => .ok pod
    deleteResp := fun _ _ => none
    getResp := fun n _ _ => if n = 0 then .ok pendingPod else .ok runningPod
    retries := 5 }

/-- A cluster in which the pod does not exist: deletion and every Get answer not-found. -/
def vanishedCluster : Cluster :=
  { createResp := fun pod => .ok pod
    deleteResp := fun _ _ => some notFoundErr
    getResp := fun _ _ _ => .error notFoundErr
    retries := 5 }

/-- A cluster that rejects the deletion request, while a Get would answer not-found. -/
def forbiddenCluster : Cluster :=
  { createResp := fun _ => .error forbiddenErr
    deleteResp := fun _ _ => some forbiddenErr
    getResp := fun _ _ _ => .error notFoundErr
    retries := 5 }

/-- A cluster that accepts the deletion, still shows the pod once and then answers
not-found. -/
def goneAfterOne : Cluster :=
  { createResp := fun pod => .ok pod
    deleteResp := fun _ _ => none
    getResp := fun n _ _ => if n = 0 then .ok runningPod else .error notFoundErr
    retries := 5 }

/-- A cluster that accepts the pod, reports it Pending once and then rejects the Get. -/
def brokenAfterOne : Cluster :=
  { createResp := fun pod => .ok pod
    deleteResp := fun _ _ => none
    getResp := fun n _ _ => if n = 0 then .ok pendingPod else .error forbiddenErr
    retries := 5 }

/-- A pod whose constructor set one label. -/
def labelledPod : Pod :=
  { Name := "diki-pod", Namespace := "kube-system", Labels := some [("app", "ops")] }

/-- A pod context whose additional labels collide with the label of `labelledPod`. -/
def overridingContext : SimplePodContext :=
  { AdditionalPodLabels := some [("origin", "diki"), ("app", "override")],
    WaitInterval := 2, WaitTimeout := 60 }

/-- The pod context used in the examples. -/
def demoContext : SimplePodContext :=
  { AdditionalPodLabels := some [("origin", "diki")], WaitInterval := 2, WaitTimeout := 60 }

/-! ## Package utils -/

/-- Modelled from the spec: `utils.MatchLabels`, whose body is not part of the sources; its
test table says it returns true when `m1` contains all keys and values of `m2`, and false
when it does not, when `m1` is nil and when `m2` is nil.  The entries of `m2` are visited
one by one and looked up in `m1`. -/
def MatchLabels (m1 m2 : GoMap) : Bool :=
  match m1, m2 with
  | some entries1, some entries2 =>
      entries2.all (fun entry => entries1.lookup entry.1 == some entry.2)
  | _, _ => false

/-- Modelled from the spec: `utils.Subset`, whose body is not part of the sources; its test
table says it returns true when `s1` is empty or a subset of `s2` and false otherwise.  The
elements of `s1` are visited one by one and searched in `s2`. -/
def Subset (s1 s2 : List String) : Bool :=
  s1.all (fun x => s2.contains x)

/-- Modelled from the spec: `utils.EqualSets`, whose body is not part of the sources; its
test table says it returns true when `s1` and `s2` have the same elements, ordered or not,
and false when they have different elements. -/
def EqualSets (s1 s2 : List String) : Bool :=
  Subset s1 s2 && Subset s2 s1

/-! ## Package rule -/

/-- Modelled from the spec: the status of a check result. -/
inductive Status where
  | Passed
  | Failed
  | Errored
  | Accepted
  | Skipped
  deriving DecidableEq, Repr

/-- Modelled from the spec: `rule.Target`, an ordered mapping of string keys to string
values. -/
abbrev Target := List (String × String)

/-- Modelled from the spec: `rule.NewTarget`, the target holding the given key/value pairs
in order. -/
def NewTarget.build : Target → List String → Target
  | t, k :: v :: rest => NewTarget.build (mapStore t k v) rest
  | t, _ => t

/-- Modelled from the spec: `rule.NewTarget` applied to its key/value arguments. -/
def NewTarget (keyValuePairs : List String) : Target := NewTarget.build [] keyValuePairs

/-- Modelled from the spec: `Target.With`, a new target with the key/value added; the
receiver is not changed. -/
def Target.With (t : Target) (k v : String) : Target := mapStore t k v

/-- Modelled from the spec: `rule.CheckResult`. -/
structure CheckResult where
  Status : Status
  Message : String
  Target : Target
  deriving DecidableEq, Repr

/-- Modelled from the spec: `rule.PassedCheckResult`. -/
def PassedCheckResult (message : String) (target : Target) : CheckResult :=
  { Status := .Passed, Message := message, Target := target }

/-- Modelled from the spec: `rule.FailedCheckResult`. -/
def FailedCheckResult (message : String) (target : Target) : CheckResult :=
  { Status := .Failed, Message := message, Target := target }

/-- Modelled from the spec: `rule.AcceptedCheckResult`. -/
def AcceptedCheckResult (message : String) (target : Target) : CheckResult :=
  { Status := .Accepted, Message := message, Target := target }

/-! ## Rule 242414 -/

/-- The field of `corev1.ContainerPort` the rule reads; `HostPort` is an `int32`. -/
structure ContainerPort where
  HostPort : Int
  deriving DecidableEq, Repr

/-- The fields of `corev1.Container` the rule reads. -/
structure Container where
  Name : String
  Ports : List ContainerPort
  deriving DecidableEq, Repr

/-- A `corev1.Pod` with the containers of its spec. -/
structure SpecPod extends Pod where
  Containers : List Container
  deriving DecidableEq, Repr

/-- The field of `corev1.Namespace` the rule reads. -/
structure Namespace where
  Labels : GoMap
  deriving DecidableEq, Repr

/-- An entry of `Options242414.AcceptedPods`, with the fields `accepted` reads. -/
structure AcceptedPods242414 where
  PodMatchLabels : GoMap
  NamespaceMatchLabels : GoMap
  Justification : String
  Ports : List Int
  deriving DecidableEq, Repr

/-- The struct `option.Options242414`. -/
structure Options242414 where
  AcceptedPods : List AcceptedPods242414
  deriving DecidableEq, Repr

/-- The struct `Rule242414`; a nil `Options` pointer is `none`. -/
structure Rule242414 where
  Options : Option Options242414
  deriving DecidableEq, Repr

/-- The map read `namespaces[pod.Namespace]`: a missing key gives the zero namespace. -/
def namespaceOf (namespaces : List (String × Namespace)) (name : String) : Namespace :=
  match namespaces.lookup name with
  | some ns => ns
  | none => { Labels := none }

/-- The loop over `r.Options.AcceptedPods` in `accepted` (lines 93-104). -/
def acceptedLoop (pod : SpecPod) (ns : Namespace) (hostPort : Int) :
    List AcceptedPods242414 → Bool × String
  | [] => (false, "")
  | acceptedPod :: rest =>
      if MatchLabels pod.Labels acceptedPod.PodMatchLabels &&
          MatchLabels ns.Labels acceptedPod.NamespaceMatchLabels then
        if acceptedPod.Ports.any (fun acceptedHostPort => acceptedHostPort == hostPort) then
          (true, acceptedPod.Justification)
        else acceptedLoop pod ns hostPort rest
      else acceptedLoop pod ns hostPort rest

/-- The method `Rule242414.accepted`. -/
def accepted (r : Rule242414) (pod : SpecPod) (ns : Namespace) (hostPort : Int) :
    Bool × String :=
  match r.Options with
  | none => (false, "")
  | some options => acceptedLoop pod ns hostPort options.AcceptedPods

/-- The condition `port.HostPort != 0 && port.HostPort < 1024`. -/
def usesLowHostPort (port : ContainerPort) : Bool :=
  port.HostPort != 0 && decide (port.HostPort < 1024)

/-- The variables the loops of `checkPods` update: `target`, `checkResults` and `uses`. -/
structure CheckState where
  target : Target
  checkResults : List CheckResult
  uses : Bool
  deriving DecidableEq, Repr

/-- One iteration of the loop over `container.Ports` (lines 66-78). -/
def portStep (r : Rule242414) (pod : SpecPod) (namespaces : List (String × Namespace))
    (container : Container) (st : CheckState) (port : ContainerPort) : CheckState :=
  if usesLowHostPort port then
    let target := st.target.With "details"
      ("containerName: " ++ container.Name ++ ", port: " ++ toString port.HostPort)
    match accepted r pod (namespaceOf namespaces pod.Namespace) port.HostPort with
    | (true, justification) =>
        let msg := if justification ≠ "" then justification
          else "Container accepted to use hostPort < 1024."
        { target := target,
          checkResults := st.checkResults ++ [AcceptedCheckResult msg target],
          uses := true }
    | (false, _) =>
        { target := target,
          checkResults := st.checkResults ++
            [FailedCheckResult "Container uses hostPort < 1024." target],
          uses := true }
  else st

/-- One iteration of the loop over `pod.Spec.Containers` (lines 64-82); `uses` starts false
for every container, `target` and `checkResults` are carried over. -/
def containerStep (r : Rule242414) (pod : SpecPod) (namespaces : List (String × Namespace))
    (st : CheckState) (container : Container) : CheckState :=
  let st' := container.Ports.foldl (portStep r pod namespaces container)
    { st with uses := false }
  if !st'.uses then
    { st' with checkResults := st'.checkResults ++
        [PassedCheckResult "Container does not use hostPort < 1024." st'.target] }
  else st'

/-- One iteration of the loop over `pods` (lines 62-83); `target` is built anew for every
pod. -/
def podStep (r : Rule242414) (namespaces : List (String × Namespace))
    (checkResults : List CheckResult) (pod : SpecPod) : List CheckResult :=
  let target := NewTarget ["name", pod.Name, "namespace", pod.Namespace, "kind", "pod"]
  (pod.Containers.foldl (containerStep r pod namespaces)
    { target := target, checkResults := checkResults, uses := false }).checkResults

/-- The method `Rule242414.checkPods`. -/
def checkPods (r : Rule242414) (pods : List SpecPod) (namespaces : List (String × Namespace)) :
    List CheckResult :=
  pods.foldl (podStep r namespaces) []

/-- The host ports of a container that are non-zero and below 1024, in order. -/
def lowPorts (container : Container) : List ContainerPort :=
  container.Ports.filter usesLowHostPort

/-- The status and message of a check result. -/
def verdict (cr : CheckResult) : Status × String := (cr.Status, cr.Message)

/-- The verdict expected for one low host port: Accepted, with the justification
or the default message, when `accepted` says so, and Failed otherwise. -/
def portVerdictSpec (r : Rule242414) (pod : SpecPod) (namespaces : List (String × Namespace))
    (port : ContainerPort) : Status × String :=
  if (accepted r pod (namespaceOf namespaces pod.Namespace) port.HostPort).1 then
    (.Accepted,
      if (accepted r pod (namespaceOf namespaces pod.Namespace) port.HostPort).2 ≠ "" then
        (accepted r pod (namespaceOf namespaces pod.Namespace) port.HostPort).2
      else "Container accepted to use hostPort < 1024.")
  else (.Failed, "Container uses hostPort < 1024.")

/-- The verdicts expected for one container: one per low host port, in port
order, or a single Passed when there is none. -/
def containerVerdictsSpec (r : Rule242414) (pod : SpecPod)
    (namespaces : List (String × Namespace)) (container : Container) : List (Status × String) :=
  if (lowPorts container).isEmpty then
    [(.Passed, "Container does not use hostPort < 1024.")]
  else (lowPorts container).map (portVerdictSpec r pod namespaces)

/-- The verdicts expected for a pod list: pod order, then container order. -/
def checkPodsVerdictsSpec (r : Rule242414) (pods : List SpecPod)
    (namespaces : List (String × Namespace)) : List (Status × String) :=
  pods.flatMap (fun pod => pod.Containers.flatMap (containerVerdictsSpec r pod namespaces))

/-- The state `st` with `res` put in front of its check results. -/
def CheckState.prepend (res : List CheckResult) (st : CheckState) : CheckState :=
  { st with checkResults := res ++ st.checkResults }

/-- The check results `checkPods` emits for one pod. -/
def podResults (r : Rule242414) (namespaces : List (String × Namespace)) (pod : SpecPod) :
    List CheckResult :=
  podStep r namespaces [] pod

/-- An `AcceptedPods` entry accepts a host port of a pod: its pod labels and namespace
labels are matched and the port is in its list. -/
def acceptsEntry (pod : SpecPod) (ns : Namespace) (hostPort : Int)
    (acceptedPod : AcceptedPods242414) : Bool :=
  MatchLabels pod.Labels acceptedPod.PodMatchLabels &&
    MatchLabels ns.Labels acceptedPod.NamespaceMatchLabels &&
    decide (hostPort ∈ acceptedPod.Ports)

/-- Options accepting host port 80 for pods labelled `app=web` in namespaces labelled
`tier=edge`, without a justification, and host port 443 with one. -/
def edgeOptions : Options242414 :=
  { AcceptedPods :=
      [{ PodMatchLabels := some [("app", "web")], NamespaceMatchLabels := some [("tier", "edge")],
         Justification := "", Ports := [80] },
       { PodMatchLabels := some [("app", "web")], NamespaceMatchLabels := some [("tier", "edge")],
         Justification := "TLS ingress", Ports := [80, 443] }] }

/-- A namespace labelled `tier=edge`. -/
def edgeNamespace : Namespace := { Labels := some [("tier", "edge")] }

/-- A pod labelled `app=web` in namespace `ingress` whose first container has the host
ports 80, 443, 22, 8080 and 0 and whose second container has no ports. -/
def edgePod : SpecPod :=
  { Name := "edge", Namespace := "ingress", Labels := some [("app", "web")],
    Containers :=
      [{ Name := "proxy",
         Ports := [{ HostPort := 80 }, { HostPort := 443 }, { HostPort := 22 },
                   { HostPort := 8080 }, { HostPort := 0 }] },
       { Name := "logger", Ports := [] }] }

/-- A pod labelled `app=web` in a namespace that is not in the namespaces map. -/
def strayPod : SpecPod :=
  { Name := "stray", Namespace := "unknown", Labels := some [("app", "web")],
    Containers := [{ Name := "proxy", Ports := [{ HostPort := 80 }] }] }

/-- A namespaces map holding the namespace `ingress`, labelled `tier=edge`. -/
def edgeNamespaces : List (String × Namespace) := [("ingress", edgeNamespace)]

/-- A pod with three containers: host ports 80 and 443, host port 8080, and no ports. -/
def portsPod : SpecPod :=
  { Name := "ports", Namespace := "default", Labels := none,
    Containers :=
      [{ Name := "a", Ports := [{ HostPort := 80 }, { HostPort := 443 }] },
       { Name := "b", Ports := [{ HostPort := 8080 }] },
       { Name := "c", Ports := [] }] }

/-- A pod without containers. -/
def emptyPod : SpecPod :=
  { Name := "empty", Namespace := "default", Labels := none, Containers := [] }

/-- A pod with a container that uses host port 80 followed by one without ports. -/
def twoContainerPod : SpecPod :=
  { Name := "web", Namespace := "default", Labels := some [("app", "web")],
    Containers := [{ Name := "nginx", Ports := [{ HostPort := 80 }, { HostPort := 8080 }] },
                   { Name := "sidecar", Ports := [] }] }

/-! ## The rule registry -/

/-- Modelled from the spec: a `rule.Rule`, the capability `ID()`, `Name()`, in its three
variants: a concrete rule of the rules packages (its name is supplied by that package; of
the values it is bound to, the parsed operator options are kept), a `SkipRule` with its
justification and status, and a `RetryableRule` decorating a base rule with retry
conditions and a retry bound. -/
inductive Rule where
  | concrete (id name : String) (options : Option String)
  | skip (id name justification : String) (status : Status)
  | retryable (base : Rule) (retryConditions : List String) (maxRetries : Nat)
  deriving DecidableEq, Repr

/-- Modelled from the spec: the method `ID()`; the decorator forwards it to its base rule. -/
def Rule.ID : Rule → String
  | .concrete id _ _ => id
  | .skip id _ _ _ => id
  | .retryable base _ _ => base.ID

/-- Modelled from the spec: the method `Name()`; the decorator forwards it to its base
rule. -/
def Rule.Name : Rule → String
  | .concrete _ name _ => name
  | .skip _ name _ _ => name
  | .retryable base _ _ => base.Name

/-- Modelled from the spec: `rule.NewSkipRule`, a SkipRule with the given ID, name,
justification and status. -/
def NewSkipRule (id name justification : String) (status : Status) : Rule :=
  .skip id name justification status

/-- Modelled from the spec: `retry.New` with a base rule, a retry condition and a maximum
number of retries. -/
def retry.New (base : Rule) (retryCondition : List String) (maxRetries : Nat) : Rule :=
  .retryable base retryCondition maxRetries

/-- The retry condition `rcOpsPod` (lines 131-133), by the names of its expressions. -/
def rcOpsPod : List String := ["OpsPodNotFoundRegexp"]

/-- The retry condition `rcFileChecks` (lines 134-139), by the names of its expressions. -/
def rcFileChecks : List String :=
  ["ContainerNotFoundOnNodeRegexp", "ContainerFileNotFoundOnNodeRegexp",
    "ContainerNotReadyRegexp", "OpsPodNotFoundRegexp"]

/-- The struct `config.RuleOptionSkipConfig`. -/
structure RuleOptionSkipConfig where
  Enabled : Bool
  Justification : String
  deriving DecidableEq, Repr

/-- The fields of `config.RuleOptionsConfig` the registry reads: a nil `Skip` pointer and
nil `Args` are `none`; the structured `Args` value is kept as configured. -/
structure RuleOptionsConfig where
  Skip : Option RuleOptionSkipConfig
  Args : Option String
  deriving DecidableEq, Repr

/-- The option types `getV2R1OptionOrNil` is instantiated with. -/
inductive OptionType where
  | KubeProxyOptions
  | Options242414
  | Options242415
  | FileOwnerOptions
  | Options242451
  | Options245543
  | Options254800
  deriving DecidableEq, Repr

/-- The surroundings of `registerV2R1Rules`: the outcomes of the constructors it calls, the
server version and its parsing by `semver.NewVersion`, `json.Marshal`, `json.Unmarshal`
into an option type, the validation an option type exposes (`none` when it exposes none),
the names of the concrete rules, and the answer of `AddRules`. -/
structure RegistryEnv where
  newShootClient : Option GoError
  newSeedClient : Option GoError
  newClientSet : Option GoError
  serverVersion : Except GoError String
  newVersion : String → Option GoError
  jsonMarshal : String → Except GoError String
  jsonUnmarshal : OptionType → String → Except GoError String
  validate : OptionType → Option (String → Option GoError)
  ruleName : String → String
  addRules : List Rule → Option GoError

/-- The fields of `Ruleset` that `registerV2R1Rules` reads. -/
structure Ruleset where
  AdditionalOpsPodLabels : GoMap
  MaxRetries : Nat

/-- The function `parseV2R1Options`, for the option type `O`. -/
def parseV2R1Options (env : RegistryEnv) (O : OptionType) (options : String) :
    Option String × Option GoError :=
  match env.jsonMarshal options with
  | .error err => (none, some err)
  | .ok optionsByte =>
      match env.jsonUnmarshal O optionsByte with
      | .error err => (none, some err)
      | .ok parsedOptions =>
          match env.validate O with
          | some validate =>
              match validate parsedOptions with
              | some err => (none, some err)
              | none => (some parsedOptions, none)
          | none => (some parsedOptions, none)

/-- The function `getV2R1OptionOrNil`, for the option type `O`. -/
def getV2R1OptionOrNil (env : RegistryEnv) (O : OptionType) (options : Option String) :
    Option String × Option GoError :=
  match options with
  | none => (none, none)
  | some args => parseV2R1Options env O args

/-- The expression `ruleOptions[id].Args`: a missing key gives the zero value. -/
def argsOf (ruleOptions : List (String × RuleOptionsConfig)) (id : String) : Option String :=
  match ruleOptions.lookup id with
  | some opt => opt.Args
  | none => none

/-- The ten calls of `getV2R1OptionOrNil` in `registerV2R1Rules` (lines 90-129), in source
order: the rule ID and the option type of each. -/
def v2r1OptionRules : List (String × OptionType) :=
  [("242400", .KubeProxyOptions), ("242414", .Options242414), ("242415", .Options242415),
   ("242445", .FileOwnerOptions), ("242446", .FileOwnerOptions), ("242451", .Options242451),
   ("242466", .KubeProxyOptions), ("242467", .KubeProxyOptions), ("245543", .Options245543),
   ("254800", .Options254800)]

/-- Lines 90-129 of `registerV2R1Rules`: the option parses run one after the other, the
first failure returns the error `rule option <ID> error: ...`; on success the parsed
options are kept by rule ID. -/
def parseRuleOptions (env : RegistryEnv) (ruleOptions : List (String × RuleOptionsConfig)) :
    List (String × OptionType) → Except GoError (List (String × Option String))
  | [] => .ok []
  | (id, O) :: rest =>
      match getV2R1OptionOrNil env O (argsOf ruleOptions id) with
      | (_, some err) => .error (errorNew ("rule option " ++ id ++ " error: " ++ err.Error))
      | (opts, none) =>
          match parseRuleOptions env ruleOptions rest with
          | .error err => .error err
          | .ok parsed => .ok ((id, opts) :: parsed)

/-- The variable `opts<ID>` among the parsed options. -/
def optsOf (parsed : List (String × Option String)) (id : String) : Option String :=
  match parsed.lookup id with
  | some opts => opts
  | none => none

/-- The slice literal `rules` of `registerV2R1Rules` (lines 150-642), entry by entry. -/
def v2r1Rules (env : RegistryEnv) (r : Ruleset) (parsed : List (String × Option String)) :
    List Rule :=
  [
    .concrete "242376" (env.ruleName "242376") none,
    .concrete "242377" (env.ruleName "242377") none,
    .concrete "242378" (env.ruleName "242378") none,
    .concrete "242379" (env.ruleName "242379") none,
    .concrete "242380" (env.ruleName "242380") none,
    .concrete "242381" (env.ruleName "242381") none,
    .concrete "242382" (env.ruleName "242382") none,
    .concrete "242383" (env.ruleName "242383") none,
    NewSkipRule "242384"
      "The Kubernetes Scheduler must have secure binding (MEDIUM 242384)"
      "The Kubernetes Scheduler runs in a container which already has limited access to network interfaces. In addition ingress traffic to the Kubernetes Scheduler is restricted via network policies, making an unintended exposure less likely."
      Status.Skipped,
    NewSkipRule "242385"
      "The Kubernetes Controller Manager must have secure binding (MEDIUM 242385)"
      "The Kubernetes Controller Manager runs in a container which already has limited access to network interfaces. In addition ingress traffic to the Kubernetes Controller Manager is restricted via network policies, making an unintended exposure less likely."
      Status.Skipped,
    .concrete "242386" (env.ruleName "242386") none,
    .concrete "242387" (env.ruleName "242387") none,
    .concrete "242388" (env.ruleName "242388") none,
    .concrete "242389" (env.ruleName "242389") none,
    .concrete "242390" (env.ruleName "242390") none,
    .concrete "242391" (env.ruleName "242391") none,
    .concrete "242392" (env.ruleName "242392") none,
    retry.New (.concrete "242393" (env.ruleName "242393") none) rcOpsPod r.MaxRetries,
    retry.New (.concrete "242394" (env.ruleName "242394") none) rcOpsPod r.MaxRetries,
    .concrete "242395" (env.ruleName "242395") none,
    NewSkipRule "242396"
      "Kubernetes Kubectl cp command must give expected access and results (MEDIUM 242396)"
      "\x22kubectl\x22 is not installed into control plane pods or worker nodes and Gardener does not offer Kubernetes v1.12 or older."
      Status.Skipped,
    .concrete "242397" (env.ruleName "242397") none,
    NewSkipRule "242398"
      "Kubernetes DynamicAuditing must not be enabled (MEDIUM 242398)"
      "Option feature-gates.DynamicAuditing removed in Kubernetes v1.19."
      Status.Skipped,
    .concrete "242399" (env.ruleName "242399") none,
    retry.New (.concrete "242400" (env.ruleName "242400") (optsOf parsed "242400")) rcFileChecks r.MaxRetries,
    .concrete "242402" (env.ruleName "242402") none,
    .concrete "242403" (env.ruleName "242403") none,
    retry.New (.concrete "242404" (env.ruleName "242404") none) rcOpsPod r.MaxRetries,
    NewSkipRule "242405"
      "Kubernetes manifests must be owned by root (MEDIUM 242405)"
      "Gardener does not deploy any control plane component as systemd processes or static pod."
      Status.Skipped,
    retry.New (.concrete "242406" (env.ruleName "242406") none) rcFileChecks r.MaxRetries,
    retry.New (.concrete "242407" (env.ruleName "242407") none) rcFileChecks r.MaxRetries,
    NewSkipRule "242408"
      "The Kubernetes manifest files must have least privileges  (MEDIUM 242408)"
      "Gardener does not deploy any control plane component as systemd processes or static pod."
      Status.Skipped,
    .concrete "242409" (env.ruleName "242409") none,
    NewSkipRule "242410"
      "The Kubernetes API Server must enforce ports, protocols, and services (PPS) that adhere to the Ports, Protocols, and Services Management Category Assurance List (PPSM CAL) (MEDIUM 242410)"
      "Cannot be tested and should be enforced organizationally. Gardener uses a minimum of known and automatically opened/used/created ports/protocols/services (PPSM stands for Ports, Protocols, Service Management)."
      Status.Skipped,
    NewSkipRule "242411"
      "The Kubernetes Scheduler must enforce ports, protocols, and services (PPS) that adhere to the Ports, Protocols, and Services Management Category Assurance List (PPSM CAL) (MEDIUM 242411)"
      "Cannot be tested and should be enforced organizationally. Gardener uses a minimum of known and automatically opened/used/created ports/protocols/services (PPSM stands for Ports, Protocols, Service Management)."
      Status.Skipped,
    NewSkipRule "242412"
      "The Kubernetes Controllers must enforce ports, protocols, and services (PPS) that adhere to the Ports, Protocols, and Services Management Category Assurance List (PPSM CAL) (MEDIUM 242412)"
      "Cannot be tested and should be enforced organizationally. Gardener uses a minimum of known and automatically opened/used/created ports/protocols/services (PPSM stands for Ports, Protocols, Service Management)."
      Status.Skipped,
    NewSkipRule "242413"
      "The Kubernetes etcd must enforce ports, protocols, and services (PPS) that adhere to the Ports, Protocols, and Services Management Category Assurance List (PPSM CAL) (MEDIUM 242413)"
      "Cannot be tested and should be enforced organizationally. Gardener uses a minimum of known and automatically opened/used/created ports/protocols/services (PPSM stands for Ports, Protocols, Service Management)."
      Status.Skipped,
    .concrete "242414" (env.ruleName "242414") (optsOf parsed "242414"),
    .concrete "242415" (env.ruleName "242415") (optsOf parsed "242415"),
    .concrete "242417" (env.ruleName "242417") none,
    .concrete "242418" (env.ruleName "242418") none,
    .concrete "242419" (env.ruleName "242419") none,
    .concrete "242420" (env.ruleName "242420") none,
    .concrete "242421" (env.ruleName "242421") none,
    .concrete "242422" (env.ruleName "242422") none,
    .concrete "242423" (env.ruleName "242423") none,
    .concrete "242424" (env.ruleName "242424") none,
    .concrete "242425" (env.ruleName "242425") none,
    .concrete "242426" (env.ruleName "242426") none,
    .concrete "242427" (env.ruleName "242427") none,
    .concrete "242428" (env.ruleName "242428") none,
    .concrete "242429" (env.ruleName "242429") none,
    .concrete "242430" (env.ruleName "242430") none,
    .concrete "242431" (env.ruleName "242431") none,
    .concrete "242432" (env.ruleName "242432") none,
    .concrete "242433" (env.ruleName "242433") none,
    .concrete "242434" (env.ruleName "242434") none,
    .concrete "242436" (env.ruleName "242436") none,
    NewSkipRule "242437"
      "Kubernetes must have a pod security policy set (HIGH 242437)"
      "PSPs are removed in K8s version 1.25."
      Status.Skipped,
    .concrete "242438" (env.ruleName "242438") none,
    .concrete "242442" (env.ruleName "242442") none,
    NewSkipRule "242443"
      "Kubernetes must contain the latest updates as authorized by IAVMs, CTOs, DTMs, and STIGs (MEDIUM 242443)"
      "Scanning/patching security vulnerabilities should be enforced organizationally. Security vulnerability scanning should be automated and maintainers should be informed automatically."
      Status.Skipped,
    NewSkipRule "242444"
      "Kubernetes component manifests must be owned by root (MEDIUM 242444)"
      "Rule is duplicate of \x22242405\x22"
      Status.Skipped,
    retry.New (.concrete "242445" (env.ruleName "242445") (optsOf parsed "242445")) rcFileChecks r.MaxRetries,
    retry.New (.concrete "242446" (env.ruleName "242446") (optsOf parsed "242446")) rcFileChecks r.MaxRetries,
    retry.New (.concrete "242447" (env.ruleName "242447") none) rcFileChecks r.MaxRetries,
    retry.New (.concrete "242448" (env.ruleName "242448") none) rcFileChecks r.MaxRetries,
    retry.New (.concrete "242449" (env.ruleName "242449") none) rcFileChecks r.MaxRetries,
    retry.New (.concrete "242450" (env.ruleName "242450") none) rcFileChecks r.MaxRetries,
    retry.New (.concrete "242451" (env.ruleName "242451") (optsOf parsed "242451")) rcFileChecks r.MaxRetries,
    retry.New (.concrete "242452" (env.ruleName "242452") none) rcFileChecks r.MaxRetries,
    retry.New (.concrete "242453" (env.ruleName "242453") none) rcFileChecks r.MaxRetries,
    NewSkipRule "242454"
      "Kubernetes kubeadm.conf must be owned by root(MEDIUM 242454)"
      "Gardener does not use \x22kubeadm\x22 and also does not store any \x22main config\x22 anywhere in seed or shoot (flow/component logic built-in/in-code)."
      Status.Skipped,
    NewSkipRule "242455"
      "Kubernetes kubeadm.conf must have file permissions set to 644 or more restrictive (MEDIUM 242455)"
      "Gardener does not use \x22kubeadm\x22 and also does not store any \x22main config\x22 anywhere in seed or shoot (flow/component logic built-in/in-code)."
      Status.Skipped,
    NewSkipRule "242456"
      "Kubernetes kubelet config must have file permissions set to 644 or more restrictive (MEDIUM 242456)"
      "Rule is duplicate of \x22242452\x22."
      Status.Skipped,
    NewSkipRule "242457"
      "Kubernetes kubelet config must be owned by root (MEDIUM 242457)"
      "Rule is duplicate of \x22242453\x22."
      Status.Skipped,
    retry.New (.concrete "242459" (env.ruleName "242459") none) rcFileChecks r.MaxRetries,
    retry.New (.concrete "242460" (env.ruleName "242460") none) rcFileChecks r.MaxRetries,
    .concrete "242461" (env.ruleName "242461") none,
    .concrete "242462" (env.ruleName "242462") none,
    .concrete "242463" (env.ruleName "242463") none,
    .concrete "242464" (env.ruleName "242464") none,
    NewSkipRule "242465"
      "Kubernetes API Server audit log path must be set (MEDIUM 242465)"
      "Rule is duplicate of \x22242402\x22"
      Status.Skipped,
    retry.New (.concrete "242466" (env.ruleName "242466") (optsOf parsed "242466")) rcFileChecks r.MaxRetries,
    retry.New (.concrete "242467" (env.ruleName "242467") (optsOf parsed "242467")) rcFileChecks r.MaxRetries,
    .concrete "245541" (env.ruleName "245541") none,
    .concrete "245542" (env.ruleName "245542") none,
    .concrete "245543" (env.ruleName "245543") (optsOf parsed "245543"),
    .concrete "245544" (env.ruleName "245544") none,
    .concrete "254800" (env.ruleName "254800") (optsOf parsed "254800"),
    NewSkipRule "254801"
      "Kubernetes must enable PodSecurity admission controller on static pods and Kubelets (HIGH 254801)"
      "Option featureGates.PodSecurity was made GA in v1.25 and removed in v1.28."
      Status.Skipped
  ]

/-- One iteration of the skip-override loop (lines 644-649). -/
def skipOverride (ruleOptions : List (String × RuleOptionsConfig)) (rule : Rule) : Rule :=
  match ruleOptions.lookup rule.ID with
  | some opt =>
      match opt.Skip with
      | some skip =>
          if skip.Enabled then NewSkipRule rule.ID rule.Name skip.Justification Status.Accepted
          else rule
      | none => rule
  | none => rule

/-- The skip-override loop (lines 644-649): every index of the slice is visited once and
overwritten in place. -/
def applySkipOverrides (ruleOptions : List (String × RuleOptionsConfig)) (rules : List Rule) :
    List Rule :=
  rules.map (skipOverride ruleOptions)

/-- Lines 644-657 of `registerV2R1Rules`, for an assembled rule list: the skip-override
loop, the cardinality check and the call of `AddRules`.  The result is the returned error
and the argument lists of the calls of `AddRules`. -/
def registerAssembled (env : RegistryEnv) (ruleOptions : List (String × RuleOptionsConfig))
    (assembled : List Rule) : Option GoError × List (List Rule) :=
  let rules := applySkipOverrides ruleOptions assembled
  if rules.length ≠ 91 then
    (some (errorNew ("revision expects 91 registered rules, but got: " ++
      toString rules.length)), [])
  else
    (env.addRules rules, [rules])

/-- The method `Ruleset.registerV2R1Rules`: the returned error and the argument lists of
the calls of `AddRules`. -/
def registerV2R1Rules (env : RegistryEnv) (r : Ruleset)
    (ruleOptions : List (String × RuleOptionsConfig)) : Option GoError × List (List Rule) :=
  match env.newShootClient with
  | some err => (some err, [])
  | none =>
  match env.newSeedClient with
  | some err => (some err, [])
  | none =>
  match (NewSimplePodContext r.AdditionalOpsPodLabels).2 with
  | some err => (some err, [])
  | none =>
  match (NewSimplePodContext r.AdditionalOpsPodLabels).2 with
  | some err => (some err, [])
  | none =>
  match env.newClientSet with
  | some err => (some err, [])
  | none =>
  match env.serverVersion with
  | .error err => (some err, [])
  | .ok shootKubernetesVersion =>
  match env.newVersion shootKubernetesVersion with
  | some err => (some err, [])
  | none =>
  match parseRuleOptions env ruleOptions v2r1OptionRules with
  | .error err => (some err, [])
  | .ok parsed => registerAssembled env ruleOptions (v2r1Rules env r parsed)

/-- The constructors and the version lookup at the start of `registerV2R1Rules` succeed. -/
def RegistryEnv.setupOk (env : RegistryEnv) : Prop :=
  env.newShootClient = none ∧ env.newSeedClient = none ∧ env.newClientSet = none ∧
    ∃ version, env.serverVersion = .ok version ∧ env.newVersion version = none

/-- An environment in which everything succeeds: options are taken as configured, only
`KubeProxyOptions` exposes a validation, which rejects the value `invalid`. -/
def RegistryEnv.simple : RegistryEnv :=
  { newShootClient := none, newSeedClient := none, newClientSet := none,
    serverVersion := .ok "v1.28.2", newVersion := fun _ => none,
    jsonMarshal := fun args => .ok args,
    jsonUnmarshal := fun _ bytes => .ok bytes,
    validate := fun O =>
      match O with
      | .KubeProxyOptions =>
          some (fun v => if v = "invalid" then some (errorNew "invalid kube-proxy options")
            else none)
      | _ => none,
    ruleName := fun id => "rule " ++ id,
    addRules := fun _ => none }

/-- The ruleset used in the examples. -/
def demoRuleset : Ruleset := { AdditionalOpsPodLabels := none, MaxRetries := 1 }

/-- Rule options that skip rule 242400 with the justification `N/A`. -/
def skip242400 : List (String × RuleOptionsConfig) :=
  [("242400", { Skip := some { Enabled := true, Justification := "N/A" }, Args := none })]

/-- Rule options with invalid arguments for rule 242466. -/
def invalid242466 : List (String × RuleOptionsConfig) :=
  [("242466", { Skip := none, Args := some "invalid" })]

/-- Three assembled rules of the three kinds: concrete, retryable-decorated and a
compiled-in Skipped SkipRule. -/
def threeKinds : List Rule :=
  [.concrete "242376" "etcd must be secured" none,
   retry.New (.concrete "242400" "alpha APIs must be off" none) rcFileChecks 1,
   NewSkipRule "242384" "The Kubernetes Scheduler must have secure binding"
     "not applicable" Status.Skipped]

/-- Rule options that skip the rules 242400 and 242384 and carry a disabled skip for
242376. -/
def skipTwo : List (String × RuleOptionsConfig) :=
  [("242400", { Skip := some { Enabled := true, Justification := "N/A" }, Args := none }),
   ("242384", { Skip := some { Enabled := true, Justification := "accepted risk" },
                Args := none }),
   ("242376", { Skip := some { Enabled := false, Justification := "unused" }, Args := none })]

/-! # Theorems -/

/-! ## The retry scheduler -/

theorem Until_done {σ : Type} (probe : σ → σ × ProbeResult) (n : Nat) (last : Option GoError)
    (s : σ) (h : (probe s).2.1 = true) :
    Until probe n last s = ((probe s).1, (probe s).2.2) := by
  rcases hp : probe s with ⟨s', d, err⟩
  rw [hp] at h
  simp only at h
  subst h
  cases n <;> simp [Until, hp]

theorem Until_retry {σ : Type} (probe : σ → σ × ProbeResult) (n : Nat) (last : Option GoError)
    (s : σ) (h : (probe s).2.1 = false) :
    Until probe (n + 1) last s = Until probe n ((probe s).2.2 <|> last) (probe s).1 := by
  rcases hp : probe s with ⟨s', d, err⟩
  rw [hp] at h
  simp only at h
  subst h
  simp [Until, hp]

/-- When the probe reports not done in its first `k` invocations and done in the next one,
and the deadline leaves room for `k` retries, `Until` returns what that invocation
reported, having invoked the probe `k + 1` times. -/
theorem Until_stops {σ : Type} (probe : σ → σ × ProbeResult) :
    ∀ (k n : Nat) (last : Option GoError) (s : σ), k ≤ n →
      (∀ i, i < k → (probe (probeIter probe i s)).2.1 = false) →
      (probe (probeIter probe k s)).2.1 = true →
      Until probe n last s =
        ((probe (probeIter probe k s)).1, (probe (probeIter probe k s)).2.2) := by
  intro k
  induction k with
  | zero =>
      intro n last s _ _ hdone
      exact Until_done probe n last s hdone
  | succ k ih =>
      intro n last s hle hminor hdone
      obtain ⟨m, rfl⟩ : ∃ m, n = m + 1 := ⟨n - 1, by omega⟩
      rw [Until_retry probe m last s (hminor 0 (Nat.succ_pos k))]
      refine ih m _ (probe s).1 (by omega) (fun i hi => ?_) hdone
      exact hminor (i + 1) (by omega)

/-- A result of `Until` without error comes from an invocation, within the deadline, in
which the probe reported Ok. -/
theorem Until_none {σ : Type} (probe : σ → σ × ProbeResult) :
    ∀ (n : Nat) (last : Option GoError) (s s' : σ),
      Until probe n last s = (s', none) →
      ∃ k, k ≤ n ∧ probe (probeIter probe k s) = (s', true, none) := by
  intro n
  induction n with
  | zero =>
      intro last s s' h
      rcases hp : probe s with ⟨t, d, err⟩
      cases d
      · simp [Until, hp] at h
      · simp only [Until, hp, Prod.mk.injEq] at h
        exact ⟨0, Nat.le_refl 0, by simp only [probeIter]; rw [hp, h.1, h.2]⟩
  | succ n ih =>
      intro last s s' h
      rcases hp : probe s with ⟨t, d, err⟩
      cases d
      · simp only [Until, hp] at h
        obtain ⟨k, hk, hpk⟩ := ih _ _ _ h
        refine ⟨k + 1, by omega, ?_⟩
        simp only [probeIter, hp]
        exact hpk
      · simp only [Until, hp, Prod.mk.injEq] at h
        exact ⟨0, Nat.zero_le _, by simp only [probeIter]; rw [hp, h.1, h.2]⟩

/-- A property of the state that every probe invocation preserves holds after `Until`. -/
theorem Until_preserves {σ : Type} (probe : σ → σ × ProbeResult) (P : σ → Prop)
    (hP : ∀ s, P s → P (probe s).1) :
    ∀ (n : Nat) (last : Option GoError) (s : σ), P s → P (Until probe n last s).1 := by
  intro n
  induction n with
  | zero =>
      intro last s hs
      have h1 := hP s hs
      rcases hp : probe s with ⟨t, d, err⟩
      rw [hp] at h1
      cases d <;> simpa [Until, hp] using h1
  | succ n ih =>
      intro last s hs
      have h1 := hP s hs
      rcases hp : probe s with ⟨t, d, err⟩
      rw [hp] at h1
      cases d
      · simp only [Until, hp]
        exact ih _ _ h1
      · simpa [Until, hp] using h1

/-! ## Label merging -/

theorem lookup_cons_ite (k a b : String) (tl : List (String × String)) :
    List.lookup k ((a, b) :: tl) = if k = a then some b else List.lookup k tl := by
  by_cases h : k = a
  · subst h
    simp [List.lookup]
  · have hb : (k == a) = false := by simpa using h
    simp only [List.lookup, hb, h, if_false]

theorem lookup_mapStore (m : List (String × String)) (k v k' : String) :
    (mapStore m k v).lookup k' = if k' = k then some v else m.lookup k' := by
  induction m with
  | nil =>
      simp only [mapStore, lookup_cons_ite]
  | cons hd tl ih =>
      obtain ⟨a, b⟩ := hd
      by_cases hak : a = k
      · subst hak
        simp only [mapStore, if_true, lookup_cons_ite]
        by_cases h : k' = a <;> simp only [h, if_true, if_false]
      · simp only [mapStore, hak, if_false, lookup_cons_ite, ih]
        by_cases h : k' = k
        · subst h
          have hne : ¬ k' = a := fun e => hak e.symm
          simp only [hne, if_false, if_true]
        · simp only [h, if_false]

theorem lookup_merge_fold (adds : List (String × String)) :
    ∀ (acc : List (String × String)) (k : String),
      (adds.foldl
        (fun acc (entry : String × String) =>
          match acc.lookup entry.1 with
          | some _ => acc
          | none => mapStore acc entry.1 entry.2)
        acc).lookup k =
      match acc.lookup k with
      | some v => some v
      | none => adds.lookup k := by
  induction adds with
  | nil =>
      intro acc k
      simp only [List.foldl_nil]
      cases h : List.lookup k acc <;> rfl
  | cons hd tl ih =>
      intro acc k
      obtain ⟨a, b⟩ := hd
      rw [List.foldl_cons, ih, lookup_cons_ite]
      cases ha : acc.lookup a with
      | some w =>
          simp only []
          cases hk : acc.lookup k with
          | some v => rfl
          | none =>
              have hne : ¬ k = a := by
                intro e
                rw [e, ha] at hk
                cases hk
              simp only [hne, if_false]
      | none =>
          simp only [lookup_mapStore]
          by_cases hka : k = a
          · subst hka
            simp only [ha, if_true]
          · simp only [hka, if_false]

theorem mergeLabels_get (pod : Pod) (additional : GoMap) (k : String) :
    (mergeLabels pod additional).Labels.get k =
      match pod.Labels.get k with
      | some v => some v
      | none => additional.get k := by
  unfold mergeLabels
  simp only [GoMap.get]
  rw [lookup_merge_fold]
  cases hl : pod.Labels with
  | none =>
      cases additional <;> simp [GoMap.range, List.lookup]
  | some entries =>
      cases additional <;> simp [GoMap.range, List.lookup]

theorem waitPodHealthyProbe_state (cl : Cluster) (name ns : String) (st : Client) :
    (waitPodHealthyProbe cl name ns st).1 = { st with gets := st.gets + 1 } := by
  unfold waitPodHealthyProbe Client.Get
  cases cl.getResp st.gets name ns with
  | error e => rfl
  | ok pod =>
      simp only []
      split
      · cases pod.conditionsJSON <;> rfl
      · rfl

theorem waitPodDeletedProbe_state (cl : Cluster) (name ns : String) (st : Client) :
    (waitPodDeletedProbe cl name ns st).1 = { st with gets := st.gets + 1 } := by
  unfold waitPodDeletedProbe Client.Get
  cases cl.getResp st.gets name ns with
  | error e =>
      simp only []
      split <;> rfl
  | ok pod => rfl

theorem waitPodHealthy_created (cl : Cluster) (name ns : String) (st : Client) :
    (waitPodHealthy cl name ns st).1.created = st.created := by
  unfold waitPodHealthy
  exact Until_preserves (waitPodHealthyProbe cl name ns) (fun t => t.created = st.created)
    (fun t ht => by rw [waitPodHealthyProbe_state]; exact ht) cl.retries none st rfl

/-- C1: `Create` submits exactly one pod for creation, the constructed pod with merged
labels: every key the constructor set keeps its value, every additional label whose key
the constructor did not set is present with the additional value, and no other key is
present; this also holds when the constructor left the labels nil. -/
theorem create_merges_labels_non_destructively (cl : Cluster) (spc : SimplePodContext)
    (podConstructorFn : Unit → Pod) (st : Client) :
    ∃ submitted : Pod,
      (Create cl spc podConstructorFn st).1.created = st.created ++ [submitted] ∧
      submitted.Name = (podConstructorFn ()).Name ∧
      submitted.Namespace = (podConstructorFn ()).Namespace ∧
      submitted.Labels ≠ none ∧
      (∀ k v, (podConstructorFn ()).Labels.get k = some v → submitted.Labels.get k = some v) ∧
      (∀ k v, (podConstructorFn ()).Labels.get k = none →
        spc.AdditionalPodLabels.get k = some v → submitted.Labels.get k = some v) ∧
      (∀ k, (podConstructorFn ()).Labels.get k = none →
        spc.AdditionalPodLabels.get k = none → submitted.Labels.get k = none) := by
  refine ⟨mergeLabels (podConstructorFn ()) spc.AdditionalPodLabels, ?_, rfl, rfl, ?_, ?_, ?_, ?_⟩
  · unfold Create Client.Create
    simp only []
    cases cl.createResp (mergeLabels (podConstructorFn ()) spc.AdditionalPodLabels) with
    | error e => rfl
    | ok stored =>
        simp only []
        have h := waitPodHealthy_created cl stored.Name stored.Namespace
          { st with created := st.created ++
            [mergeLabels (podConstructorFn ()) spc.AdditionalPodLabels] }
        rcases hw : waitPodHealthy cl stored.Name stored.Namespace
          { st with created := st.created ++
            [mergeLabels (podConstructorFn ()) spc.AdditionalPodLabels] } with ⟨st2, err⟩
        rw [hw] at h
        cases err <;> exact h
  · simp [mergeLabels]
  · intro k v h
    rw [mergeLabels_get, h]
  · intro k v h1 h2
    rw [mergeLabels_get, h1]
    exact h2
  · intro k h1 h2
    rw [mergeLabels_get, h1]
    exact h2

/-! ## Waiting for a pod -/

theorem probeIter_waitPodHealthy (cl : Cluster) (name ns : String) :
    ∀ (i : Nat) (st : Client),
      probeIter (waitPodHealthyProbe cl name ns) i st = { st with gets := st.gets + i } := by
  intro i
  induction i with
  | zero => intro st; rfl
  | succ i ih =>
      intro st
      simp only [probeIter, waitPodHealthyProbe_state, ih]
      congr 1
      omega

theorem probeIter_waitPodDeleted (cl : Cluster) (name ns : String) :
    ∀ (i : Nat) (st : Client),
      probeIter (waitPodDeletedProbe cl name ns) i st = { st with gets := st.gets + i } := by
  intro i
  induction i with
  | zero => intro st; rfl
  | succ i ih =>
      intro st
      simp only [probeIter, waitPodDeletedProbe_state, ih]
      congr 1
      omega

theorem waitPodHealthyProbe_result (cl : Cluster) (name ns : String) (st : Client) :
    (waitPodHealthyProbe cl name ns st).2 =
      match cl.getResp st.gets name ns with
      | .error err => (true, some err)
      | .ok pod =>
          if pod.Phase = PodRunning then (true, none)
          else
            match pod.conditionsJSON with
            | .error err =>
                (false, some (.errorf
                  ("failed parsing pod " ++ podKey name ns ++ " status conditions: ") err ""))
            | .ok conditions =>
                (false, some (errorNew
                  ("pod " ++ podKey name ns ++ " is not yet Running, pod conditions: "
                    ++ conditions))) := by
  unfold waitPodHealthyProbe Client.Get
  cases cl.getResp st.gets name ns with
  | error e => rfl
  | ok pod =>
      simp only []
      by_cases h : pod.Phase = PodRunning
      · simp [h, retry.Ok]
      · simp only [ne_eq, h, not_false_eq_true, if_true, if_false]
        cases pod.conditionsJSON <;> rfl

theorem waitPodDeletedProbe_result (cl : Cluster) (name ns : String) (st : Client) :
    (waitPodDeletedProbe cl name ns st).2 =
      match cl.getResp st.gets name ns with
      | .error err => if IsNotFound err then (true, none) else (true, some err)
      | .ok _ => (false, some (errorNew ("pod " ++ podKey name ns ++ " is not yet deleted"))) := by
  unfold waitPodDeletedProbe Client.Get
  cases cl.getResp st.gets name ns with
  | error e =>
      simp only []
      split <;> rfl
  | ok pod => rfl

/-- Witness for C1: the constructor set `app`, the additional labels set `origin` and
`app`; the submitted pod keeps `app`, gains `origin` and has no other key. -/
theorem create_merges_labels_non_destructively_witness :
    ∃ submitted : Pod,
      (Create readyAfterOne overridingContext (fun _ => labelledPod) Client.fresh).1.created =
        Client.fresh.created ++ [submitted] ∧
      submitted.Labels.get "app" = some "ops" ∧
      submitted.Labels.get "origin" = some "diki" ∧
      submitted.Labels.get "team" = none := by
  obtain ⟨submitted, hc, _, _, _, hkeep, hadd, hnone⟩ :=
    create_merges_labels_non_destructively readyAfterOne overridingContext
      (fun _ => labelledPod) Client.fresh
  exact ⟨submitted, hc, hkeep "app" "ops" rfl, hadd "origin" "diki" rfl rfl,
    hnone "team" rfl rfl⟩

theorem Create_eq (cl : Cluster) (spc : SimplePodContext) (podConstructorFn : Unit → Pod)
    (st : Client) :
    Create cl spc podConstructorFn st =
      match cl.createResp (mergeLabels (podConstructorFn ()) spc.AdditionalPodLabels) with
      | .error err =>
          ({ st with created := st.created ++
              [mergeLabels (podConstructorFn ()) spc.AdditionalPodLabels] }, none, some err)
      | .ok stored =>
          match waitPodHealthy cl stored.Name stored.Namespace
              { st with created := st.created ++
                [mergeLabels (podConstructorFn ()) spc.AdditionalPodLabels] } with
          | (st2, some err) => (st2, none, some err)
          | (st2, none) =>
              (st2, some { name := stored.Name, ns := stored.Namespace, WaitInterval := 3,
                           WaitTimeout := 15 }, none) := by
  unfold Create Client.Create
  simp only []
  cases cl.createResp (mergeLabels (podConstructorFn ()) spc.AdditionalPodLabels) with
  | error e => rfl
  | ok stored => rfl

/-- C6: the readiness probe reports Ok exactly when Get succeeds with phase Running and a
MinorError when Get succeeds with another phase; when `Create` returns an executor and no
error, the creation request succeeded, the last Get of the call observed phase Running
and the executor is bound to the name and namespace of the created pod; when the creation
request or the readiness wait fails, `Create` returns no executor and that error. -/
theorem create_returns_executor_only_when_running (cl : Cluster) (spc : SimplePodContext)
    (podConstructorFn : Unit → Pod) (st : Client) :
    (∀ name ns s, (waitPodHealthyProbe cl name ns s).2 = (true, none) ↔
      ∃ pod, cl.getResp s.gets name ns = .ok pod ∧ pod.Phase = PodRunning) ∧
    (∀ name ns s pod, cl.getResp s.gets name ns = .ok pod → pod.Phase ≠ PodRunning →
      ∃ e, (waitPodHealthyProbe cl name ns s).2 = (false, some e)) ∧
    (∀ exec, (Create cl spc podConstructorFn st).2 = (some exec, none) →
      ∃ stored pod,
        cl.createResp (mergeLabels (podConstructorFn ()) spc.AdditionalPodLabels) = .ok stored ∧
        exec.name = stored.Name ∧ exec.ns = stored.Namespace ∧
        st.gets < (Create cl spc podConstructorFn st).1.gets ∧
        cl.getResp ((Create cl spc podConstructorFn st).1.gets - 1) stored.Name
          stored.Namespace = .ok pod ∧
        pod.Phase = PodRunning) ∧
    (∀ e, cl.createResp (mergeLabels (podConstructorFn ()) spc.AdditionalPodLabels) = .error e →
      (Create cl spc podConstructorFn st).2 = (none, some e) ∧
      (Create cl spc podConstructorFn st).1.gets = st.gets) ∧
    (∀ stored e,
      cl.createResp (mergeLabels (podConstructorFn ()) spc.AdditionalPodLabels) = .ok stored →
      (waitPodHealthy cl stored.Name stored.Namespace
        { st with created := st.created ++
          [mergeLabels (podConstructorFn ()) spc.AdditionalPodLabels] }).2 = some e →
      (Create cl spc podConstructorFn st).2 = (none, some e)) := by
  have hok : ∀ name ns s, (waitPodHealthyProbe cl name ns s).2 = (true, none) ↔
      ∃ pod, cl.getResp s.gets name ns = .ok pod ∧ pod.Phase = PodRunning := by
    intro name ns s
    rw [waitPodHealthyProbe_result]
    cases hg : cl.getResp s.gets name ns with
    | error e => simp
    | ok pod =>
        by_cases h : pod.Phase = PodRunning
        · simp [h]
        · cases hc : pod.conditionsJSON <;> simp [h, hc]
  refine ⟨hok, ?_, ?_, ?_, ?_⟩
  · intro name ns s pod hg hne
    rw [waitPodHealthyProbe_result, hg]
    cases hc : pod.conditionsJSON <;> simp [hne, hc]
  · intro exec h
    rw [Create_eq] at h ⊢
    cases hc : cl.createResp (mergeLabels (podConstructorFn ()) spc.AdditionalPodLabels) with
    | error e =>
        rw [hc] at h
        simp at h
    | ok stored =>
        rw [hc] at h
        simp only [] at h ⊢
        rcases hw : waitPodHealthy cl stored.Name stored.Namespace
          { st with created := st.created ++
            [mergeLabels (podConstructorFn ()) spc.AdditionalPodLabels] } with ⟨st2, err⟩
        rw [hw] at h
        cases err with
        | some e => simp at h
        | none =>
            simp only [Prod.mk.injEq, Option.some.injEq, and_true] at h
            obtain ⟨k, _, hpk⟩ := Until_none _ _ _ _ _ hw
            rw [probeIter_waitPodHealthy] at hpk
            have hst := waitPodHealthyProbe_state cl stored.Name stored.Namespace
              { created := st.created ++
                  [mergeLabels (podConstructorFn ()) spc.AdditionalPodLabels],
                deleted := st.deleted, gets := st.gets + k }
            have hres := (hok stored.Name stored.Namespace
              { created := st.created ++
                  [mergeLabels (podConstructorFn ()) spc.AdditionalPodLabels],
                deleted := st.deleted, gets := st.gets + k }).1 (by rw [hpk])
            rw [hpk] at hst
            simp only at hst
            obtain ⟨pod, hget, hrun⟩ := hres
            simp only at hget
            refine ⟨stored, pod, rfl, by rw [← h], by rw [← h], ?_, ?_, hrun⟩
            · rw [hst]
              simp only
              omega
            · rw [hst]
              simp only [Nat.add_sub_cancel]
              exact hget
  · intro e hc
    rw [Create_eq, hc]
    exact ⟨rfl, rfl⟩
  · intro stored e hc hw
    rw [Create_eq, hc]
    simp only []
    rcases hw2 : waitPodHealthy cl stored.Name stored.Namespace
      { st with created := st.created ++
        [mergeLabels (podConstructorFn ()) spc.AdditionalPodLabels] } with ⟨st2, err⟩
    rw [hw2] at hw
    simp only at hw
    subst hw
    rfl

/-- Witness for C6: on a cluster that reports the pod Pending once and then Running,
`Create` returns an executor bound to the created pod after two Get requests. -/
theorem create_returns_executor_only_when_running_witness :
    (Create readyAfterOne demoContext (fun _ => demoPod) Client.fresh).2 =
        (some { name := "diki-pod", ns := "kube-system", WaitInterval := 3, WaitTimeout := 15 },
          none) ∧
    (Create readyAfterOne demoContext (fun _ => demoPod) Client.fresh).1.gets = 2 ∧
    ∃ stored pod,
      readyAfterOne.createResp (mergeLabels demoPod demoContext.AdditionalPodLabels) = .ok stored ∧
      "diki-pod" = stored.Name ∧ "kube-system" = stored.Namespace ∧
      Client.fresh.gets < (Create readyAfterOne demoContext (fun _ => demoPod) Client.fresh).1.gets ∧
      readyAfterOne.getResp
        ((Create readyAfterOne demoContext (fun _ => demoPod) Client.fresh).1.gets - 1)
        stored.Name stored.Namespace = .ok pod ∧
      pod.Phase = PodRunning :=
  ⟨rfl, rfl,
    (create_returns_executor_only_when_running readyAfterOne demoContext (fun _ => demoPod)
      Client.fresh).2.2.1
      { name := "diki-pod", ns := "kube-system", WaitInterval := 3, WaitTimeout := 15 } rfl⟩

/-- C7, as amended: in the readiness poll every Get error, a not-found error included, is
classified as a SevereError; when the first `k` Gets show a pod that is not Running and
the next Get fails, within the deadline, the poll ends with that error after `k + 1`
Gets. -/
theorem waitPodHealthy_get_error_is_severe (cl : Cluster) (name ns : String) (st : Client)
    (e : GoError) (k : Nat) (hk : k ≤ cl.retries)
    (hpending : ∀ i, i < k →
      ∃ pod, cl.getResp (st.gets + i) name ns = .ok pod ∧ pod.Phase ≠ PodRunning)
    (herr : cl.getResp (st.gets + k) name ns = .error e) :
    (waitPodHealthyProbe cl name ns { st with gets := st.gets + k }).2 = (true, some e) ∧
    waitPodHealthy cl name ns st = ({ st with gets := st.gets + k + 1 }, some e) := by
  have hlast : (waitPodHealthyProbe cl name ns { st with gets := st.gets + k }).2
      = (true, some e) := by
    rw [waitPodHealthyProbe_result]
    simp only [herr]
  refine ⟨hlast, ?_⟩
  unfold waitPodHealthy
  rw [Until_stops (waitPodHealthyProbe cl name ns) k cl.retries none st hk]
  · rw [probeIter_waitPodHealthy, waitPodHealthyProbe_state, hlast]
  · intro i hi
    obtain ⟨pod, hget, hne⟩ := hpending i hi
    rw [probeIter_waitPodHealthy, waitPodHealthyProbe_result]
    simp only [hget]
    cases hc : pod.conditionsJSON <;> simp [hne]
  · rw [probeIter_waitPodHealthy, hlast]

/-- Witness for C7 as amended: the pod is Pending once, then the Get is rejected. -/
theorem waitPodHealthy_get_error_is_severe_witness :
    (waitPodHealthyProbe brokenAfterOne "diki-pod" "kube-system"
      { Client.fresh with gets := Client.fresh.gets + 1 }).2 = (true, some forbiddenErr) ∧
    waitPodHealthy brokenAfterOne "diki-pod" "kube-system" Client.fresh =
      ({ Client.fresh with gets := Client.fresh.gets + 1 + 1 }, some forbiddenErr) :=
  waitPodHealthy_get_error_is_severe brokenAfterOne "diki-pod" "kube-system" Client.fresh
    forbiddenErr 1 (by decide)
    (fun i hi => ⟨pendingPod, by
      have h0 : i = 0 := by omega
      subst h0
      exact ⟨rfl, by decide⟩⟩)
    rfl

/-- Counterexample to C7 as stated: a not-found error of the Get request is classified as
a SevereError by the readiness probe and ends the poll at once. -/
theorem waitPodHealthy_not_found_is_severe :
    IsNotFound notFoundErr = true ∧
    vanishedCluster.getResp 0 "diki-pod" "kube-system" = .error notFoundErr ∧
    (waitPodHealthyProbe vanishedCluster "diki-pod" "kube-system" Client.fresh).2 =
      retry.SevereError notFoundErr ∧
    waitPodHealthy vanishedCluster "diki-pod" "kube-system" Client.fresh =
      ({ created := [], deleted := [], gets := 1 }, some notFoundErr) :=
  ⟨rfl, rfl, rfl, rfl⟩

/-- C8: when the deletion request fails with a not-found error, `Delete` returns nil and
issues no further request: no Get, no poll. -/
theorem delete_absent_pod_is_success (cl : Cluster) (name ns : String) (st : Client)
    (e : GoError) (hdel : cl.deleteResp name ns = some e) (hnf : IsNotFound e = true) :
    (Delete cl name ns st).2 = none ∧
    (Delete cl name ns st).1.gets = st.gets ∧
    (Delete cl name ns st).1 = { st with deleted := st.deleted ++ [(name, ns)] } := by
  unfold Delete Client.Delete
  simp only [hdel, hnf, if_true, and_self]

/-- Witness for C8: deleting a pod that does not exist. -/
theorem delete_absent_pod_is_success_witness :
    (Delete vanishedCluster "diki-pod" "kube-system" Client.fresh).2 = none ∧
    (Delete vanishedCluster "diki-pod" "kube-system" Client.fresh).1.gets = Client.fresh.gets ∧
    (Delete vanishedCluster "diki-pod" "kube-system" Client.fresh).1 =
      { Client.fresh with deleted := Client.fresh.deleted ++ [("diki-pod", "kube-system")] } :=
  delete_absent_pod_is_success vanishedCluster "diki-pod" "kube-system" Client.fresh
    notFoundErr rfl rfl

/-- Counterexample to C9 as stated: the deletion request fails with an error that is not
not-found; `Delete` returns that error without a single Get, although the poll would have
returned nil. -/
theorem delete_rejected_does_not_poll :
    forbiddenCluster.deleteResp "diki-pod" "kube-system" = some forbiddenErr ∧
    IsNotFound forbiddenErr = false ∧
    Delete forbiddenCluster "diki-pod" "kube-system" Client.fresh =
      ({ created := [], deleted := [("diki-pod", "kube-system")], gets := 0 },
        some forbiddenErr) ∧
    (waitPodDeleted forbiddenCluster "diki-pod" "kube-system"
      { created := [], deleted := [("diki-pod", "kube-system")], gets := 0 }).2 = none :=
  ⟨rfl, rfl, rfl, rfl⟩

/-- C9, as amended: when the deletion request succeeds, `Delete` polls and returns the
result of `waitPodDeleted`; if the first `k` Gets still show the pod and the next Get
fails, within the deadline, it returns nil for a not-found error and that error otherwise,
after `k + 1` Gets.  When the deletion request fails with an error other than not-found,
`Delete` returns that error without polling. -/
theorem delete_polls_after_accepted_request (cl : Cluster) (name ns : String) (st : Client) :
    (cl.deleteResp name ns = none →
      Delete cl name ns st =
        waitPodDeleted cl name ns { st with deleted := st.deleted ++ [(name, ns)] } ∧
      ∀ (k : Nat) (e : GoError), k ≤ cl.retries →
        (∀ i, i < k → ∃ pod, cl.getResp (st.gets + i) name ns = .ok pod) →
        cl.getResp (st.gets + k) name ns = .error e →
        Delete cl name ns st =
          ({ st with deleted := st.deleted ++ [(name, ns)], gets := st.gets + k + 1 },
            if IsNotFound e then none else some e)) ∧
    (∀ e, cl.deleteResp name ns = some e → IsNotFound e = false →
      Delete cl name ns st = ({ st with deleted := st.deleted ++ [(name, ns)] }, some e)) := by
  constructor
  · intro hdel
    have hD : Delete cl name ns st =
        waitPodDeleted cl name ns { st with deleted := st.deleted ++ [(name, ns)] } := by
      unfold Delete Client.Delete
      simp only [hdel]
    refine ⟨hD, ?_⟩
    intro k e hk hpresent herr
    rw [hD]
    unfold waitPodDeleted
    have hlast : (waitPodDeletedProbe cl name ns
        { created := st.created, deleted := st.deleted ++ [(name, ns)], gets := st.gets + k }).2
        = (true, if IsNotFound e then none else some e) := by
      rw [waitPodDeletedProbe_result]
      simp only [herr]
      split <;> rfl
    rw [Until_stops (waitPodDeletedProbe cl name ns) k cl.retries none _ hk]
    · rw [probeIter_waitPodDeleted, waitPodDeletedProbe_state, hlast]
    · intro i hi
      obtain ⟨pod, hget⟩ := hpresent i hi
      rw [probeIter_waitPodDeleted, waitPodDeletedProbe_result]
      simp only [hget]
    · rw [probeIter_waitPodDeleted, hlast]
  · intro e hdel hnf
    unfold Delete Client.Delete
    simp [hdel, hnf]

/-- Witness for C9 as amended: the deletion is accepted, the pod is seen once more and is
gone at the second Get. -/
theorem delete_polls_after_accepted_request_witness :
    Delete goneAfterOne "diki-pod" "kube-system" Client.fresh =
      ({ Client.fresh with
          deleted := Client.fresh.deleted ++ [("diki-pod", "kube-system")],
          gets := Client.fresh.gets + 1 + 1 },
        if IsNotFound notFoundErr then none else some notFoundErr) :=
  ((delete_polls_after_accepted_request goneAfterOne "diki-pod" "kube-system"
      Client.fresh).1 rfl).2 1 notFoundErr (by decide)
    (fun i hi => ⟨runningPod, by
      have h0 : i = 0 := by omega
      subst h0
      rfl⟩)
    rfl

/-- C10: the deletion-wait probe reports Ok exactly when Get fails with a not-found error,
a SevereError carrying the Get error exactly when Get fails with another error, and the
MinorError "pod <namespace>/<name> is not yet deleted" exactly when Get succeeds. -/
theorem waitPodDeleted_probe_classification (cl : Cluster) (name ns : String) (st : Client) :
    ((waitPodDeletedProbe cl name ns st).2 = (true, none) ↔
      ∃ e, cl.getResp st.gets name ns = .error e ∧ IsNotFound e = true) ∧
    (∀ e, (waitPodDeletedProbe cl name ns st).2 = (true, some e) ↔
      cl.getResp st.gets name ns = .error e ∧ IsNotFound e = false) ∧
    ((waitPodDeletedProbe cl name ns st).2 =
        (false, some (GoError.leaf ("pod " ++ ns ++ "/" ++ name ++ " is not yet deleted") false)) ↔
      ∃ pod, cl.getResp st.gets name ns = .ok pod) ∧
    ((waitPodDeletedProbe cl name ns st).2.1 = false ↔
      ∃ pod, cl.getResp st.gets name ns = .ok pod) := by
  rw [waitPodDeletedProbe_result]
  cases hg : cl.getResp st.gets name ns with
  | error err =>
      by_cases hnf : IsNotFound err = true
      · simp [hnf]
      · simp only [Bool.not_eq_true] at hnf
        simp only [hnf, Bool.false_eq_true, if_false, Prod.mk.injEq, true_and,
          Option.some.injEq, Except.error.injEq, exists_eq_left', reduceCtorEq, and_false,
          exists_false, false_and, and_true, false_iff, not_false_eq_true]
        intro e
        constructor
        · intro h
          subst h
          exact ⟨rfl, hnf⟩
        · intro h
          exact h.1
  | ok pod =>
      simp [errorNew, podKey, String.append_assoc]

/-- Witness for C10: after the pod was seen once, the Get answers not-found and the probe
reports Ok; while the pod is present it reports the MinorError. -/
theorem waitPodDeleted_probe_classification_witness :
    (waitPodDeletedProbe goneAfterOne "diki-pod" "kube-system"
      { created := [], deleted := [], gets := 1 }).2 = (true, none) ∧
    (waitPodDeletedProbe goneAfterOne "diki-pod" "kube-system" Client.fresh).2 =
      (false, some (GoError.leaf
        ("pod " ++ "kube-system" ++ "/" ++ "diki-pod" ++ " is not yet deleted") false)) :=
  ⟨(waitPodDeleted_probe_classification goneAfterOne "diki-pod" "kube-system"
      { created := [], deleted := [], gets := 1 }).1.2 ⟨notFoundErr, rfl, rfl⟩,
    (waitPodDeleted_probe_classification goneAfterOne "diki-pod" "kube-system"
      Client.fresh).2.2.1.2 ⟨runningPod, rfl⟩⟩

/-! ## Executing a command -/

theorem probeIter_succ {σ : Type} (probe : σ → σ × ProbeResult) :
    ∀ (n : Nat) (s : σ), probeIter probe (n + 1) s = (probe (probeIter probe n s)).1 := by
  intro n
  induction n with
  | zero => intro s; rfl
  | succ n ih =>
      intro s
      show probeIter probe (n + 1) (probe s).1 = _
      rw [ih]
      rfl

theorem string_length_pos_iff (s : String) : s.length > 0 ↔ s ≠ "" := by
  obtain ⟨l⟩ := s
  cases l with
  | nil => simp [String.length]
  | cons c cs =>
      simp only [String.length, List.length_cons, gt_iff_lt, Nat.zero_lt_succ, ne_eq, true_iff]
      intro h
      have hd := congrArg String.data h
      simp at hd

theorem executeProbe_state (env : ExecEnv) (spe : SimplePodExecutor)
    (command commandArg : String) (s : ExecState) :
    (executeProbe env spe command commandArg s).1 =
      { stdout := s.stdout ++ (env.stream spe s.attempts command commandArg).stdout,
        stderr := "", attempts := s.attempts + 1 } := by
  unfold executeProbe readAll
  simp only []
  cases (env.stream spe s.attempts command commandArg).err with
  | none =>
      simp only []
      split <;> rfl
  | some err =>
      simp only []
      split
      · rfl
      · split <;> rfl

theorem executeProbe_result (env : ExecEnv) (spe : SimplePodExecutor)
    (command commandArg : String) (s : ExecState) :
    (executeProbe env spe command commandArg s).2 =
      match (env.stream spe s.attempts command commandArg).err with
      | some err =>
          if s.stderr ++ (env.stream spe s.attempts command commandArg).stderr ≠ "" then
            (true, some (.errorf "err: " err
              (", command " ++ command ++ " " ++ commandArg ++ " stderr output: " ++
                (s.stderr ++ (env.stream spe s.attempts command commandArg).stderr))))
          else if isRetryable env err then
            (false, some (.errorf "err: " err (", command " ++ command ++ " " ++ commandArg)))
          else
            (true, some (.errorf "err: " err (", command " ++ command ++ " " ++ commandArg)))
      | none =>
          if s.stderr ++ (env.stream spe s.attempts command commandArg).stderr ≠ "" then
            (true, some (errorNew
              ("command " ++ command ++ " " ++ commandArg ++ " stderr output: " ++
                (s.stderr ++ (env.stream spe s.attempts command commandArg).stderr))))
          else
            (true, none) := by
  unfold executeProbe readAll
  simp only []
  cases (env.stream spe s.attempts command commandArg).err with
  | none =>
      simp only [string_length_pos_iff]
      split <;> rfl
  | some err =>
      simp only [string_length_pos_iff]
      split
      · rfl
      · split <;> rfl

theorem attemptState_eq (env : ExecEnv) (spe : SimplePodExecutor)
    (command commandArg : String) :
    ∀ i, attemptState env spe command commandArg i =
      { stdout := stdoutThrough env spe command commandArg i, stderr := "", attempts := i } := by
  intro i
  induction i with
  | zero => rfl
  | succ i ih =>
      unfold attemptState at ih ⊢
      rw [probeIter_succ, ih, executeProbe_state]
      rfl

theorem Execute_eq_loop (env : ExecEnv) (spe : SimplePodExecutor)
    (command commandArg : String) (hsetup : env.setupOk) :
    Execute env spe command commandArg =
      match executeLoop env spe command commandArg with
      | (_, some err) => ("", some err)
      | (s, none) => (s.stdout, none) := by
  obtain ⟨h1, h2, h3, h4⟩ := hsetup
  unfold Execute
  simp only [h1, h2, h3, h4]
  rcases executeLoop env spe command commandArg with ⟨s, err⟩
  cases err <;> rfl

/-- The loop of `Execute` when attempt `k` is the first in which the probe reports done. -/
theorem executeLoop_stops (env : ExecEnv) (spe : SimplePodExecutor)
    (command commandArg : String) (k : Nat) (hk : k ≤ env.retries)
    (hretried : ∀ i, i < k → (attemptResult env spe command commandArg i).1 = false)
    (hdone : (attemptResult env spe command commandArg k).1 = true) :
    executeLoop env spe command commandArg =
      ({ stdout := stdoutThrough env spe command commandArg (k + 1), stderr := "",
         attempts := k + 1 },
        (attemptResult env spe command commandArg k).2) := by
  unfold executeLoop
  rw [Until_stops (executeProbe env spe command commandArg) k env.retries none
    ExecState.fresh hk hretried hdone]
  have h := attemptState_eq env spe command commandArg k
  unfold attemptState at h
  unfold attemptResult attemptState
  rw [executeProbe_state, h]
  rfl

theorem infix_data_of_append (a x b whole : String) (h : whole = a ++ x ++ b) :
    x.data <:+: whole.data := by
  subst h
  simp only [String.data_append]
  exact List.infix_append _ _ _

theorem infix_data_of_append_right (a x whole : String) (h : whole = a ++ x) :
    x.data <:+: whole.data := by
  subst h
  simp only [String.data_append]
  exact (List.suffix_append _ _).isInfix

theorem Wraps_self (e : GoError) : e.Wraps e = true := by
  cases e <;> simp [GoError.Wraps]

theorem isRetryable_iff (env : ExecEnv) (err : GoError) :
    isRetryable env err = true ↔
      (Contains (env.TrimSpace (env.ToLower err.Error)) "timeout occurred" = true ∨
        Contains (env.TrimSpace (env.ToLower err.Error)) "operation timed out" = true ∨
        Contains (env.TrimSpace (env.ToLower err.Error)) "connection reset by peer" = true ∨
        Contains (env.TrimSpace (env.ToLower err.Error)) "context deadline exceeded" = true) := by
  simp only [isRetryable, retryableErrorSubstrings, List.any_cons, List.any_nil,
    Bool.or_false, Bool.or_eq_true]

/-- The SevereError of an attempt with captured stderr names the command, its argument and
the stderr text. -/
theorem executeProbe_stderr (env : ExecEnv) (spe : SimplePodExecutor)
    (command commandArg : String) (s : ExecState)
    (hstderr : s.stderr ++ (env.stream spe s.attempts command commandArg).stderr ≠ "") :
    ∃ e, (executeProbe env spe command commandArg s).2 = (true, some e) ∧
      command.data <:+: e.Error.data ∧ commandArg.data <:+: e.Error.data ∧
      (s.stderr ++ (env.stream spe s.attempts command commandArg).stderr).data
        <:+: e.Error.data := by
  rw [executeProbe_result]
  cases (env.stream spe s.attempts command commandArg).err with
  | none =>
      simp only [hstderr, ne_eq, not_false_eq_true, if_true]
      refine ⟨_, rfl, ?_, ?_, ?_⟩
      · exact infix_data_of_append "command " command
          (" " ++ commandArg ++ " stderr output: " ++
            (s.stderr ++ (env.stream spe s.attempts command commandArg).stderr)) _
          (by simp only [errorNew, GoError.Error, String.append_assoc])
      · exact infix_data_of_append ("command " ++ command ++ " ") commandArg
          (" stderr output: " ++
            (s.stderr ++ (env.stream spe s.attempts command commandArg).stderr)) _
          (by simp only [errorNew, GoError.Error, String.append_assoc])
      · exact infix_data_of_append_right
          ("command " ++ command ++ " " ++ commandArg ++ " stderr output: ") _ _
          (by simp only [errorNew, GoError.Error, String.append_assoc])
  | some err =>
      simp only [hstderr, ne_eq, not_false_eq_true, if_true]
      refine ⟨_, rfl, ?_, ?_, ?_⟩
      · exact infix_data_of_append ("err: " ++ err.Error ++ ", command ") command
          (" " ++ commandArg ++ " stderr output: " ++
            (s.stderr ++ (env.stream spe s.attempts command commandArg).stderr)) _
          (by simp only [GoError.Error, String.append_assoc])
      · exact infix_data_of_append ("err: " ++ err.Error ++ ", command " ++ command ++ " ")
          commandArg
          (" stderr output: " ++
            (s.stderr ++ (env.stream spe s.attempts command commandArg).stderr)) _
          (by simp only [GoError.Error, String.append_assoc])
      · exact infix_data_of_append_right
          ("err: " ++ err.Error ++ ", command " ++ command ++ " " ++ commandArg ++
            " stderr output: ") _ _
          (by simp only [GoError.Error, String.append_assoc])

/-- C2: an attempt whose captured stderr is non-empty makes the probe report a SevereError,
whatever the stream call returned; its message contains the command, the argument and the
stderr text.  In a run of `Execute` whose earlier attempts were retried, `Execute` returns
that error with an empty string and makes no further stream call. -/
theorem execute_stderr_is_severe (env : ExecEnv) (spe : SimplePodExecutor)
    (command commandArg : String) (k : Nat) (hsetup : env.setupOk) (hk : k ≤ env.retries)
    (hretried : ∀ i, i < k → (attemptResult env spe command commandArg i).1 = false)
    (hstderr : (env.stream spe k command commandArg).stderr ≠ "") :
    (∀ s : ExecState,
      s.stderr ++ (env.stream spe s.attempts command commandArg).stderr ≠ "" →
      ∃ e, (executeProbe env spe command commandArg s).2 = (true, some e) ∧
        command.data <:+: e.Error.data ∧ commandArg.data <:+: e.Error.data ∧
        (s.stderr ++ (env.stream spe s.attempts command commandArg).stderr).data
          <:+: e.Error.data) ∧
    ∃ e, attemptResult env spe command commandArg k = (true, some e) ∧
      command.data <:+: e.Error.data ∧ commandArg.data <:+: e.Error.data ∧
      (env.stream spe k command commandArg).stderr.data <:+: e.Error.data ∧
      Execute env spe command commandArg = ("", some e) ∧
      (executeLoop env spe command commandArg).1.attempts = k + 1 := by
  refine ⟨fun s hs => executeProbe_stderr env spe command commandArg s hs, ?_⟩
  have hst := attemptState_eq env spe command commandArg k
  have hne : (attemptState env spe command commandArg k).stderr ++
      (env.stream spe (attemptState env spe command commandArg k).attempts command
        commandArg).stderr ≠ "" := by
    rw [hst]
    simpa using hstderr
  obtain ⟨e, hres, h1, h2, h3⟩ := executeProbe_stderr env spe command commandArg _ hne
  rw [hst] at h3
  simp only [String.empty_append] at h3
  have hloop := executeLoop_stops env spe command commandArg k hk hretried
    (by unfold attemptResult; rw [hres])
  refine ⟨e, hres, h1, h2, h3, ?_, ?_⟩
  · rw [Execute_eq_loop env spe command commandArg hsetup, hloop]
    unfold attemptResult
    rw [hres]
  · rw [hloop]

/-- Witness for C2: the first attempt is retried; in the second the command writes
"permission denied" to stderr while the stream fails with a transient error text. -/
theorem execute_stderr_is_severe_witness :
    ∃ e, attemptResult (ExecEnv.simple deniedStream 3) demoExecutor "cat" "/etc/shadow" 1
        = (true, some e) ∧
      "cat".data <:+: e.Error.data ∧ "/etc/shadow".data <:+: e.Error.data ∧
      (deniedStream demoExecutor 1 "cat" "/etc/shadow").stderr.data <:+: e.Error.data ∧
      Execute (ExecEnv.simple deniedStream 3) demoExecutor "cat" "/etc/shadow" = ("", some e) ∧
      (executeLoop (ExecEnv.simple deniedStream 3) demoExecutor "cat" "/etc/shadow").1.attempts
        = 1 + 1 :=
  (execute_stderr_is_severe (ExecEnv.simple deniedStream 3) demoExecutor "cat" "/etc/shadow" 1
    ⟨rfl, rfl, rfl, rfl⟩ (by decide)
    (fun i hi => by
      have h0 : i = 0 := by omega
      subst h0
      decide)
    (by decide)).2

/-- C3: for an attempt with a stream error and no captured stderr, the probe reports a
MinorError exactly when the trimmed, lower-cased error text contains one of the four
transient substrings, and a SevereError otherwise; either error wraps the stream error
and names the command and its argument; two error texts with the same lower-cased form
are classified alike. -/
theorem execute_stream_error_classification (env : ExecEnv) (spe : SimplePodExecutor)
    (command commandArg : String) (s : ExecState) (err : GoError)
    (herr : (env.stream spe s.attempts command commandArg).err = some err)
    (hquiet : s.stderr ++ (env.stream spe s.attempts command commandArg).stderr = "") :
    ((executeProbe env spe command commandArg s).2 =
        (false, some (.errorf "err: " err (", command " ++ command ++ " " ++ commandArg))) ↔
      (Contains (env.TrimSpace (env.ToLower err.Error)) "timeout occurred" = true ∨
        Contains (env.TrimSpace (env.ToLower err.Error)) "operation timed out" = true ∨
        Contains (env.TrimSpace (env.ToLower err.Error)) "connection reset by peer" = true ∨
        Contains (env.TrimSpace (env.ToLower err.Error)) "context deadline exceeded" = true)) ∧
    ((executeProbe env spe command commandArg s).2 =
        (true, some (.errorf "err: " err (", command " ++ command ++ " " ++ commandArg))) ↔
      ¬ (Contains (env.TrimSpace (env.ToLower err.Error)) "timeout occurred" = true ∨
        Contains (env.TrimSpace (env.ToLower err.Error)) "operation timed out" = true ∨
        Contains (env.TrimSpace (env.ToLower err.Error)) "connection reset by peer" = true ∨
        Contains (env.TrimSpace (env.ToLower err.Error)) "context deadline exceeded" = true)) ∧
    (GoError.errorf "err: " err (", command " ++ command ++ " " ++ commandArg)).Wraps err = true ∧
    (GoError.errorf "err: " err (", command " ++ command ++ " " ++ commandArg)).Error =
      "err: " ++ err.Error ++ ", command " ++ command ++ " " ++ commandArg ∧
    command.data <:+:
      (GoError.errorf "err: " err (", command " ++ command ++ " " ++ commandArg)).Error.data ∧
    commandArg.data <:+:
      (GoError.errorf "err: " err (", command " ++ command ++ " " ++ commandArg)).Error.data ∧
    (∀ other : GoError, env.ToLower other.Error = env.ToLower err.Error →
      isRetryable env other = isRetryable env err) := by
  have hres : (executeProbe env spe command commandArg s).2 =
      if isRetryable env err then
        (false, some (.errorf "err: " err (", command " ++ command ++ " " ++ commandArg)))
      else
        (true, some (.errorf "err: " err (", command " ++ command ++ " " ++ commandArg))) := by
    rw [executeProbe_result, herr]
    simp only [hquiet, ne_eq, not_true_eq_false, if_false]
  refine ⟨?_, ?_, ?_, ?_, ?_, ?_, ?_⟩
  · rw [hres, ← isRetryable_iff]
    cases isRetryable env err <;> simp
  · rw [hres, ← isRetryable_iff]
    cases isRetryable env err <;> simp
  · simp [GoError.Wraps, Wraps_self]
  · simp only [GoError.Error, String.append_assoc]
  · exact infix_data_of_append ("err: " ++ err.Error ++ ", command ") command
      (" " ++ commandArg) _ (by simp only [GoError.Error, String.append_assoc])
  · exact infix_data_of_append_right ("err: " ++ err.Error ++ ", command " ++ command ++ " ")
      commandArg _ (by simp only [GoError.Error, String.append_assoc])
  · intro other h
    simp only [isRetryable, h]

/-- Witness for C3: the error text "read tcp: Connection reset by peer", with capitals, is
classified as a MinorError. -/
theorem execute_stream_error_classification_witness :
    (executeProbe (ExecEnv.simple flakyStream 3) demoExecutor "cat" "/etc/passwd"
        ExecState.fresh).2 =
      (false, some (.errorf "err: " connReset (", command " ++ "cat" ++ " " ++ "/etc/passwd"))) ∧
    Contains (asciiTrimSpace (asciiToLower connReset.Error)) "connection reset by peer" = true :=
  ⟨((execute_stream_error_classification (ExecEnv.simple flakyStream 3) demoExecutor "cat"
      "/etc/passwd" ExecState.fresh connReset rfl rfl).1).2 (Or.inr (Or.inr (Or.inl (by decide)))),
    by decide⟩

/-- An attempt in which the stream call returns no error and nothing was written to
stderr makes the probe report Ok; in a run of `Execute` whose earlier attempts were
retried, `Execute` then returns a nil error and the contents of the stdout buffer, which
for a first attempt is the stdout of that attempt. -/
theorem execute_clean_attempt_returns_stdout (env : ExecEnv) (spe : SimplePodExecutor)
    (command commandArg : String) (k : Nat) (hsetup : env.setupOk) (hk : k ≤ env.retries)
    (hretried : ∀ i, i < k → (attemptResult env spe command commandArg i).1 = false)
    (hnoerr : (env.stream spe k command commandArg).err = none)
    (hquiet : (env.stream spe k command commandArg).stderr = "") :
    attemptResult env spe command commandArg k = (true, none) ∧
    Execute env spe command commandArg =
      (stdoutThrough env spe command commandArg k ++
        (env.stream spe k command commandArg).stdout, none) ∧
    (executeLoop env spe command commandArg).1.attempts = k + 1 ∧
    (k = 0 → Execute env spe command commandArg =
      ((env.stream spe 0 command commandArg).stdout, none)) := by
  have hres : attemptResult env spe command commandArg k = (true, none) := by
    unfold attemptResult
    rw [executeProbe_result, attemptState_eq]
    simp only [hnoerr, hquiet, String.append_empty, ne_eq, not_true_eq_false, if_false]
  have hloop := executeLoop_stops env spe command commandArg k hk hretried (by rw [hres])
  have hexec : Execute env spe command commandArg =
      (stdoutThrough env spe command commandArg k ++
        (env.stream spe k command commandArg).stdout, none) := by
    rw [Execute_eq_loop env spe command commandArg hsetup, hloop, hres]
    rfl
  refine ⟨hres, hexec, by rw [hloop], ?_⟩
  intro h0
  subst h0
  rw [hexec]
  simp only [stdoutThrough, String.empty_append]

/-- Example: a first attempt that succeeds quietly. -/
theorem execute_clean_attempt_returns_stdout_witness :
    attemptResult (ExecEnv.simple (fun _ _ _ _ => { err := none, stdout := "root", stderr := "" })
        3) demoExecutor "whoami" "" 0 = (true, none) ∧
    Execute (ExecEnv.simple (fun _ _ _ _ => { err := none, stdout := "root", stderr := "" }) 3)
        demoExecutor "whoami" "" = ("root", none) :=
  ⟨(execute_clean_attempt_returns_stdout
      (ExecEnv.simple (fun _ _ _ _ => { err := none, stdout := "root", stderr := "" }) 3)
      demoExecutor "whoami" "" 0 ⟨rfl, rfl, rfl, rfl⟩ (by decide)
      (fun i hi => absurd hi (Nat.not_lt_zero i)) rfl rfl).1,
    rfl⟩

/-- C4, evaluated: the first attempt prints `uid=0` and is retried after a deadline
error; the second attempt returns no error and writes nothing to stderr, so the probe
reports Ok and `Execute` returns a nil error, but the result string is `uid=0uid=0`, not
the stdout `uid=0` of that attempt. -/
theorem execute_clean_attempt_after_retry_returns_both_outputs :
    (attemptResult (ExecEnv.simple slowStream 3) demoExecutor "id" "" 0).1 = false ∧
    (slowStream demoExecutor 1 "id" "").err = none ∧
    (slowStream demoExecutor 1 "id" "").stderr = "" ∧
    (slowStream demoExecutor 1 "id" "").stdout = "uid=0" ∧
    attemptResult (ExecEnv.simple slowStream 3) demoExecutor "id" "" 1 = (true, none) ∧
    Execute (ExecEnv.simple slowStream 3) demoExecutor "id" "" = ("uid=0uid=0", none) ∧
    (Execute (ExecEnv.simple slowStream 3) demoExecutor "id" "").1 ≠
      (slowStream demoExecutor 1 "id" "").stdout := by
  refine ⟨by decide, rfl, rfl, rfl, by decide, by decide, by decide⟩

/-- C5, evaluated: the first attempt writes "partial" to stdout and ends in a MinorError,
the second writes "full" and succeeds; `Execute` returns "partialfull", the output of the
retried attempt included, while the stderr buffer is empty before each attempt. -/
theorem execute_keeps_stdout_of_retried_attempts :
    attemptResult (ExecEnv.simple flakyStream 3) demoExecutor "cat" "/etc/passwd" 0 =
      retry.MinorError (.errorf "err: " connReset ", command cat /etc/passwd") ∧
    attemptResult (ExecEnv.simple flakyStream 3) demoExecutor "cat" "/etc/passwd" 1 =
      retry.Ok ∧
    (flakyStream demoExecutor 0 "cat" "/etc/passwd").stdout = "partial" ∧
    (flakyStream demoExecutor 1 "cat" "/etc/passwd").stdout = "full" ∧
    Execute (ExecEnv.simple flakyStream 3) demoExecutor "cat" "/etc/passwd" =
      ("partialfull", none) ∧
    (attemptState (ExecEnv.simple flakyStream 3) demoExecutor "cat" "/etc/passwd" 1).stderr
      = "" := by
  refine ⟨by decide, by decide, rfl, rfl, by decide, rfl⟩


/-! ## Package utils -/

theorem mem_of_lookup_eq_some (l : List (String × String)) (k v : String)
    (h : l.lookup k = some v) : (k, v) ∈ l := by
  induction l with
  | nil => simp [List.lookup] at h
  | cons hd tl ih =>
      obtain ⟨a, b⟩ := hd
      rw [lookup_cons_ite] at h
      by_cases hka : k = a
      · subst hka
        simp only [if_true, Option.some.injEq] at h
        subst h
        exact List.mem_cons_self _ _
      · simp only [hka, if_false] at h
        exact List.mem_cons_of_mem _ (ih h)

theorem lookup_append_of_some (l extra : List (String × String)) (k v : String)
    (h : l.lookup k = some v) : (l ++ extra).lookup k = some v := by
  induction l with
  | nil => simp [List.lookup] at h
  | cons hd tl ih =>
      obtain ⟨a, b⟩ := hd
      rw [List.cons_append, lookup_cons_ite]
      rw [lookup_cons_ite] at h
      by_cases hka : k = a
      · simpa only [hka, if_true] using h
      · simp only [hka, if_false] at h ⊢
        exact ih h

theorem MatchLabels_iff (entries1 entries2 : List (String × String)) :
    MatchLabels (some entries1) (some entries2) = true ↔
      ∀ k v, (k, v) ∈ entries2 → GoMap.get (some entries1) k = some v := by
  simp only [MatchLabels, GoMap.get, List.all_eq_true, beq_iff_eq, Prod.forall]

/-- C14: `MatchLabels m1 m2` is true exactly when both maps are non-nil and every entry of
`m2` is in `m1` with the same value, whatever other keys `m1` holds; it is false when a
key of `m2` is missing from `m1` or has another value there, and when `m1` or `m2` is
nil. -/
theorem matchLabels_spec (m1 m2 : GoMap) :
    (MatchLabels m1 m2 = true ↔
      ∃ entries1 entries2, m1 = some entries1 ∧ m2 = some entries2 ∧
        ∀ k v, (k, v) ∈ entries2 → m1.get k = some v) ∧
    (MatchLabels m1 m2 = true → ∀ k v, m2.get k = some v → m1.get k = some v) ∧
    (∀ k v, m2.get k = some v → m1.get k ≠ some v → MatchLabels m1 m2 = false) ∧
    (∀ entries1 extra, MatchLabels (some entries1) m2 = true →
      MatchLabels (some (entries1 ++ extra)) m2 = true) ∧
    MatchLabels none m2 = false ∧
    MatchLabels m1 none = false := by
  have hget : MatchLabels m1 m2 = true → ∀ k v, m2.get k = some v → m1.get k = some v := by
    intro h k v hk
    cases m1 with
    | none => simp [MatchLabels] at h
    | some entries1 =>
        cases m2 with
        | none => simp [MatchLabels] at h
        | some entries2 =>
            exact (MatchLabels_iff entries1 entries2).1 h k v
              (mem_of_lookup_eq_some entries2 k v hk)
  refine ⟨?_, hget, ?_, ?_, ?_, ?_⟩
  · constructor
    · intro h
      cases m1 with
      | none => simp [MatchLabels] at h
      | some entries1 =>
          cases m2 with
          | none => simp [MatchLabels] at h
          | some entries2 =>
              exact ⟨entries1, entries2, rfl, rfl, (MatchLabels_iff entries1 entries2).1 h⟩
    · rintro ⟨entries1, entries2, rfl, rfl, h⟩
      exact (MatchLabels_iff entries1 entries2).2 h
  · intro k v hk hne
    cases hm : MatchLabels m1 m2 with
    | false => rfl
    | true => exact absurd (hget hm k v hk) hne
  · intro entries1 extra h
    cases m2 with
    | none => simp [MatchLabels] at h
    | some entries2 =>
        rw [MatchLabels_iff] at h ⊢
        intro k v hkv
        exact lookup_append_of_some entries1 extra k v (h k v hkv)
  · cases m2 <;> rfl
  · cases m1 <;> rfl

/-- Witness for C14: the first two rows of the test table. -/
theorem matchLabels_spec_witness :
    MatchLabels (some [("foo", "bar"), ("key1", "value1"), ("key2", "value2")])
      (some [("key1", "value1"), ("key2", "value2")]) = true ∧
    MatchLabels (some [("key1", "value1"), ("key2", "value2")])
      (some [("key1", "value1"), ("foo", "bar")]) = false :=
  ⟨(matchLabels_spec (some [("foo", "bar"), ("key1", "value1"), ("key2", "value2")])
      (some [("key1", "value1"), ("key2", "value2")])).1.2
      ⟨_, _, rfl, rfl, by
        intro k v h
        simp only [List.mem_cons, Prod.mk.injEq, List.mem_singleton, List.not_mem_nil,
          or_false] at h
        rcases h with ⟨rfl, rfl⟩ | ⟨rfl, rfl⟩ <;> rfl⟩,
    (matchLabels_spec (some [("key1", "value1"), ("key2", "value2")])
      (some [("key1", "value1"), ("foo", "bar")])).2.2.1 "foo" "bar" rfl (by decide)⟩

theorem Subset_iff (s1 s2 : List String) :
    Subset s1 s2 = true ↔ ∀ x, x ∈ s1 → x ∈ s2 := by
  simp [Subset, List.all_eq_true]

/-- C15: `Subset s1 s2` is true exactly when every element of `s1` occurs in `s2`; it is
true for an empty `s1`, does not depend on the order of either slice, is false when some
element of `s1` is not in `s2`, and is false when `s1` has more distinct elements than
`s2`. -/
theorem subset_spec (s1 s2 : List String) :
    (Subset s1 s2 = true ↔ ∀ x, x ∈ s1 → x ∈ s2) ∧
    Subset [] s2 = true ∧
    (∀ t1 t2, s1.Perm t1 → s2.Perm t2 → Subset t1 t2 = Subset s1 s2) ∧
    (∀ x, x ∈ s1 → x ∉ s2 → Subset s1 s2 = false) ∧
    (s2.dedup.length < s1.dedup.length → Subset s1 s2 = false) := by
  refine ⟨Subset_iff s1 s2, rfl, ?_, ?_, ?_⟩
  · intro t1 t2 h1 h2
    rw [Bool.eq_iff_iff, Subset_iff, Subset_iff]
    constructor
    · intro h x hx
      exact h2.mem_iff.2 (h x (h1.mem_iff.1 hx))
    · intro h x hx
      exact h2.mem_iff.1 (h x (h1.mem_iff.2 hx))
  · intro x hx hnot
    cases hs : Subset s1 s2 with
    | false => rfl
    | true => exact absurd ((Subset_iff s1 s2).1 hs x hx) hnot
  · intro hlt
    cases hs : Subset s1 s2 with
    | false => rfl
    | true =>
        have hsub : s1.dedup ⊆ s2.dedup := by
          intro x hx
          exact List.mem_dedup.2 ((Subset_iff s1 s2).1 hs x (List.mem_dedup.1 hx))
        have hle := ((List.nodup_dedup s1).subperm hsub).length_le
        omega

/-- Witness for C15: the rows of the test table. -/
theorem subset_spec_witness :
    Subset [] ["foo", "bar"] = true ∧
    Subset ["bar", "foo"] ["foo", "bar", "foo-bar"] = true ∧
    Subset ["foo", "foo-bar"] ["foo", "bar", "test"] = false ∧
    Subset ["foo", "bar", "foo-bar"] ["foo", "bar"] = false :=
  ⟨(subset_spec [] ["foo", "bar"]).2.1,
    (subset_spec ["bar", "foo"] ["foo", "bar", "foo-bar"]).1.2 (by decide),
    (subset_spec ["foo", "foo-bar"] ["foo", "bar", "test"]).2.2.2.1 "foo-bar" (by decide)
      (by decide),
    (subset_spec ["foo", "bar", "foo-bar"] ["foo", "bar"]).2.2.2.2 (by decide)⟩

/-- C16: `EqualSets` does not depend on element order: it is true when `s2` is a
permutation of `s1`, in particular `s1` itself, gives the same answer on permuted
arguments, and is false when one slice has an element the other does not have. -/
theorem equalSets_spec (s1 s2 : List String) :
    (s1.Perm s2 → EqualSets s1 s2 = true) ∧
    EqualSets s1 s1 = true ∧
    (∀ t1 t2, s1.Perm t1 → s2.Perm t2 → EqualSets t1 t2 = EqualSets s1 s2) ∧
    (∀ x, (x ∈ s1 ∧ x ∉ s2) ∨ (x ∈ s2 ∧ x ∉ s1) → EqualSets s1 s2 = false) ∧
    (EqualSets s1 s2 = true ↔ ∀ x, x ∈ s1 ↔ x ∈ s2) := by
  have hiff : ∀ a b : List String, EqualSets a b = true ↔ ∀ x, x ∈ a ↔ x ∈ b := by
    intro a b
    simp only [EqualSets, Bool.and_eq_true, Subset_iff]
    constructor
    · intro h x
      exact ⟨h.1 x, h.2 x⟩
    · intro h
      exact ⟨fun x => (h x).1, fun x => (h x).2⟩
  refine ⟨?_, ?_, ?_, ?_, hiff s1 s2⟩
  · intro h
    exact (hiff s1 s2).2 (fun x => h.mem_iff)
  · exact (hiff s1 s1).2 (fun x => Iff.rfl)
  · intro t1 t2 h1 h2
    rw [Bool.eq_iff_iff, hiff, hiff]
    constructor
    · intro h x
      rw [h1.mem_iff, h2.mem_iff]
      exact h x
    · intro h x
      rw [← h1.mem_iff, ← h2.mem_iff]
      exact h x
  · intro x hx
    cases hs : EqualSets s1 s2 with
    | false => rfl
    | true =>
        have h := (hiff s1 s2).1 hs x
        rcases hx with ⟨h1, h2⟩ | ⟨h1, h2⟩
        · exact absurd (h.1 h1) h2
        · exact absurd (h.2 h1) h2

/-- Witness for C16: the rows of the test table. -/
theorem equalSets_spec_witness :
    EqualSets ["foo", "bar"] ["foo", "bar"] = true ∧
    EqualSets ["bar", "foo"] ["foo", "bar"] = true ∧
    EqualSets ["foo", "bar"] ["foo", "bar", "foo-bar"] = false :=
  ⟨(equalSets_spec ["foo", "bar"] ["foo", "bar"]).2.1,
    (equalSets_spec ["bar", "foo"] ["foo", "bar"]).1 (List.Perm.swap _ _ _),
    (equalSets_spec ["foo", "bar"] ["foo", "bar", "foo-bar"]).2.2.2.1 "foo-bar"
      (Or.inr ⟨by decide, by decide⟩)⟩

/-! ## Rule 242414 -/

theorem portStep_prepend (r : Rule242414) (pod : SpecPod)
    (namespaces : List (String × Namespace)) (container : Container)
    (res : List CheckResult) (st : CheckState) (port : ContainerPort) :
    portStep r pod namespaces container (st.prepend res) port =
      (portStep r pod namespaces container st port).prepend res := by
  unfold portStep
  by_cases hlow : usesLowHostPort port = true
  · simp only [hlow, if_true, CheckState.prepend]
    rcases accepted r pod (namespaceOf namespaces pod.Namespace) port.HostPort with ⟨b, j⟩
    cases b <;> simp [List.append_assoc]
  · simp only [hlow, if_false, Bool.false_eq_true]

theorem portFold_prepend (r : Rule242414) (pod : SpecPod)
    (namespaces : List (String × Namespace)) (container : Container)
    (res : List CheckResult) :
    ∀ (ports : List ContainerPort) (st : CheckState),
      ports.foldl (portStep r pod namespaces container) (st.prepend res) =
        (ports.foldl (portStep r pod namespaces container) st).prepend res := by
  intro ports
  induction ports with
  | nil => intro st; rfl
  | cons p ps ih =>
      intro st
      simp only [List.foldl_cons, portStep_prepend, ih]

theorem containerStep_prepend (r : Rule242414) (pod : SpecPod)
    (namespaces : List (String × Namespace)) (res : List CheckResult) (st : CheckState)
    (container : Container) :
    containerStep r pod namespaces (st.prepend res) container =
      (containerStep r pod namespaces st container).prepend res := by
  unfold containerStep
  have h : ({ st.prepend res with uses := false } : CheckState) =
      ({ st with uses := false } : CheckState).prepend res := rfl
  simp only [h, portFold_prepend]
  cases hu : (container.Ports.foldl (portStep r pod namespaces container)
      { st with uses := false }).uses <;>
    simp [CheckState.prepend, hu, List.append_assoc]

theorem containerFold_prepend (r : Rule242414) (pod : SpecPod)
    (namespaces : List (String × Namespace)) (res : List CheckResult) :
    ∀ (containers : List Container) (st : CheckState),
      containers.foldl (containerStep r pod namespaces) (st.prepend res) =
        (containers.foldl (containerStep r pod namespaces) st).prepend res := by
  intro containers
  induction containers with
  | nil => intro st; rfl
  | cons c cs ih =>
      intro st
      simp only [List.foldl_cons, containerStep_prepend, ih]

theorem podStep_prepend (r : Rule242414) (namespaces : List (String × Namespace))
    (res : List CheckResult) (pod : SpecPod) :
    podStep r namespaces res pod = res ++ podResults r namespaces pod := by
  unfold podResults podStep
  have h : ({ target := NewTarget ["name", pod.Name, "namespace", pod.Namespace, "kind", "pod"],
              checkResults := res, uses := false } : CheckState) =
      CheckState.prepend res
        { target := NewTarget ["name", pod.Name, "namespace", pod.Namespace, "kind", "pod"],
          checkResults := [], uses := false } := by
    simp [CheckState.prepend]
  simp only [h, containerFold_prepend]
  rfl

theorem podFold_eq (r : Rule242414) (namespaces : List (String × Namespace)) :
    ∀ (pods : List SpecPod) (res : List CheckResult),
      pods.foldl (podStep r namespaces) res = res ++ pods.flatMap (podResults r namespaces) := by
  intro pods
  induction pods with
  | nil => intro res; simp
  | cons p ps ih =>
      intro res
      rw [List.foldl_cons, ih, podStep_prepend]
      simp [List.append_assoc]

/-- The results of `checkPods` are the results of its pods, one pod after the other. -/
theorem checkPods_eq_flatMap (r : Rule242414) (pods : List SpecPod)
    (namespaces : List (String × Namespace)) :
    checkPods r pods namespaces = pods.flatMap (podResults r namespaces) := by
  unfold checkPods
  rw [podFold_eq]
  rfl

theorem portStep_verdict (r : Rule242414) (pod : SpecPod)
    (namespaces : List (String × Namespace)) (container : Container) (st : CheckState)
    (port : ContainerPort) :
    (portStep r pod namespaces container st port).checkResults.map verdict =
        st.checkResults.map verdict ++
          (if usesLowHostPort port then [portVerdictSpec r pod namespaces port] else []) ∧
    (portStep r pod namespaces container st port).uses = (st.uses || usesLowHostPort port) := by
  unfold portStep portVerdictSpec
  by_cases hlow : usesLowHostPort port = true
  · simp only [hlow, if_true]
    rcases accepted r pod (namespaceOf namespaces pod.Namespace) port.HostPort with ⟨b, j⟩
    cases b <;>
      simp [verdict, AcceptedCheckResult, FailedCheckResult]
  · simp only [Bool.not_eq_true] at hlow
    simp [hlow]

theorem portFold_verdicts (r : Rule242414) (pod : SpecPod)
    (namespaces : List (String × Namespace)) (container : Container) :
    ∀ (ports : List ContainerPort) (st : CheckState),
      (ports.foldl (portStep r pod namespaces container) st).checkResults.map verdict =
          st.checkResults.map verdict ++
            (ports.filter usesLowHostPort).map (portVerdictSpec r pod namespaces) ∧
      (ports.foldl (portStep r pod namespaces container) st).uses =
          (st.uses || !(ports.filter usesLowHostPort).isEmpty) := by
  intro ports
  induction ports with
  | nil => intro st; simp
  | cons p ps ih =>
      intro st
      obtain ⟨h1, h2⟩ := portStep_verdict r pod namespaces container st p
      obtain ⟨i1, i2⟩ := ih (portStep r pod namespaces container st p)
      rw [List.foldl_cons, i1, i2, h1, h2]
      by_cases hlow : usesLowHostPort p = true
      · simp [List.filter_cons, hlow]
      · simp only [Bool.not_eq_true] at hlow
        simp [List.filter_cons, hlow]

theorem containerStep_verdicts (r : Rule242414) (pod : SpecPod)
    (namespaces : List (String × Namespace)) (st : CheckState) (container : Container) :
    (containerStep r pod namespaces st container).checkResults.map verdict =
      st.checkResults.map verdict ++ containerVerdictsSpec r pod namespaces container := by
  obtain ⟨h1, h2⟩ := portFold_verdicts r pod namespaces container container.Ports
    { st with uses := false }
  unfold containerStep containerVerdictsSpec lowPorts
  simp only [Bool.false_or] at h2
  cases he : (container.Ports.filter usesLowHostPort).isEmpty with
  | true =>
      rw [he] at h2
      have hnil : container.Ports.filter usesLowHostPort = [] := List.isEmpty_iff.1 he
      simp only [h2, Bool.not_true, Bool.not_false, if_true]
      simp only [List.map_append, h1, hnil, List.map_nil, List.append_nil, List.map_cons,
        verdict, PassedCheckResult]
  | false =>
      rw [he] at h2
      simp only [h2, Bool.not_false, Bool.not_true, Bool.false_eq_true, if_false, h1]

theorem containerFold_verdicts (r : Rule242414) (pod : SpecPod)
    (namespaces : List (String × Namespace)) :
    ∀ (containers : List Container) (st : CheckState),
      (containers.foldl (containerStep r pod namespaces) st).checkResults.map verdict =
        st.checkResults.map verdict ++
          containers.flatMap (containerVerdictsSpec r pod namespaces) := by
  intro containers
  induction containers with
  | nil => intro st; simp
  | cons c cs ih =>
      intro st
      rw [List.foldl_cons, ih, containerStep_verdicts]
      simp [List.append_assoc]

theorem podResults_verdicts (r : Rule242414) (namespaces : List (String × Namespace))
    (pod : SpecPod) :
    (podResults r namespaces pod).map verdict =
      pod.Containers.flatMap (containerVerdictsSpec r pod namespaces) := by
  unfold podResults podStep
  rw [containerFold_verdicts]
  rfl

theorem checkPods_verdicts (r : Rule242414) (pods : List SpecPod)
    (namespaces : List (String × Namespace)) :
    (checkPods r pods namespaces).map verdict = checkPodsVerdictsSpec r pods namespaces := by
  rw [checkPods_eq_flatMap]
  unfold checkPodsVerdictsSpec
  induction pods with
  | nil => rfl
  | cons p ps ih =>
      simp only [List.flatMap_cons, List.map_append, ih, podResults_verdicts]

theorem usesLowHostPort_iff (port : ContainerPort) :
    usesLowHostPort port = true ↔ port.HostPort ≠ 0 ∧ port.HostPort < 1024 := by
  simp [usesLowHostPort]

theorem portVerdictSpec_status_ne_passed (r : Rule242414) (pod : SpecPod)
    (namespaces : List (String × Namespace)) (port : ContainerPort) :
    (portVerdictSpec r pod namespaces port).1 ≠ Status.Passed := by
  unfold portVerdictSpec
  split <;> simp

theorem lowPorts_filter_eq (container : Container) :
    container.Ports.filter (fun port => decide (port.HostPort ≠ 0 ∧ port.HostPort < 1024)) =
      lowPorts container := by
  unfold lowPorts
  congr 1
  funext port
  rw [Bool.eq_iff_iff, usesLowHostPort_iff]
  simp

theorem acceptedLoop_nil_labels (pod : SpecPod) (hostPort : Int) :
    ∀ entries : List AcceptedPods242414,
      acceptedLoop pod { Labels := none } hostPort entries = (false, "") := by
  intro entries
  induction entries with
  | nil => rfl
  | cons e es ih =>
      have h : MatchLabels (none : GoMap) e.NamespaceMatchLabels = false := by
        cases e.NamespaceMatchLabels <;> rfl
      unfold acceptedLoop
      simp only [h, Bool.and_false, Bool.false_eq_true, if_false, ih]

theorem accepted_nil_labels (r : Rule242414) (pod : SpecPod) (hostPort : Int) :
    accepted r pod { Labels := none } hostPort = (false, "") := by
  unfold accepted
  cases r.Options with
  | none => rfl
  | some options => exact acceptedLoop_nil_labels pod hostPort options.AcceptedPods

/-- C17: the verdicts of `checkPods` are, pod by pod and container by container, those the
messages announce: a container gets a Passed verdict exactly when none of its ports has a
host port that is non-zero and below 1024; otherwise it gets one verdict per such port,
Accepted when `accepted` says so for the pod and the namespace read from the namespaces
map, and Failed otherwise, also when the namespace is not in the map; ports with host port
0 or at least 1024 contribute nothing. -/
theorem checkPods_verdicts_match_messages (r : Rule242414) (pods : List SpecPod)
    (namespaces : List (String × Namespace)) :
    (checkPods r pods namespaces).map verdict =
      pods.flatMap (fun pod =>
        pod.Containers.flatMap (containerVerdictsSpec r pod namespaces)) ∧
    (∀ pod container,
      (∃ v, v ∈ containerVerdictsSpec r pod namespaces container ∧ v.1 = Status.Passed) ↔
        ∀ port, port ∈ container.Ports → ¬ (port.HostPort ≠ 0 ∧ port.HostPort < 1024)) ∧
    (∀ pod container v, v ∈ containerVerdictsSpec r pod namespaces container →
      v.1 = Status.Passed → v.2 = "Container does not use hostPort < 1024.") ∧
    (∀ pod container,
      (containerVerdictsSpec r pod namespaces container).filter
          (fun v => decide (v.1 ≠ Status.Passed)) =
        (container.Ports.filter
          (fun port => decide (port.HostPort ≠ 0 ∧ port.HostPort < 1024))).map
          (portVerdictSpec r pod namespaces)) ∧
    (∀ pod port,
      (accepted r pod (namespaceOf namespaces pod.Namespace) port.HostPort).1 = true →
      (portVerdictSpec r pod namespaces port).1 = Status.Accepted) ∧
    (∀ pod port,
      (accepted r pod (namespaceOf namespaces pod.Namespace) port.HostPort).1 = false →
      portVerdictSpec r pod namespaces port =
        (Status.Failed, "Container uses hostPort < 1024.")) ∧
    (∀ (pod : SpecPod) (ns : Namespace) (port : ContainerPort),
      namespaces.lookup pod.Namespace = some ns →
      portVerdictSpec r pod namespaces port =
        if (accepted r pod ns port.HostPort).1 then
          (Status.Accepted,
            if (accepted r pod ns port.HostPort).2 ≠ "" then (accepted r pod ns port.HostPort).2
            else "Container accepted to use hostPort < 1024.")
        else (Status.Failed, "Container uses hostPort < 1024.")) ∧
    (∀ (pod : SpecPod) (port : ContainerPort), namespaces.lookup pod.Namespace = none →
      portVerdictSpec r pod namespaces port =
        (Status.Failed, "Container uses hostPort < 1024.")) := by
  have hfilter : ∀ container : Container,
      container.Ports.filter (fun port => decide (port.HostPort ≠ 0 ∧ port.HostPort < 1024)) =
        lowPorts container := by
    intro container
    unfold lowPorts
    congr 1
    funext port
    rw [Bool.eq_iff_iff, usesLowHostPort_iff]
    simp
  refine ⟨checkPods_verdicts r pods namespaces, ?_, ?_, ?_, ?_, ?_, ?_, ?_⟩
  · intro pod container
    unfold containerVerdictsSpec
    cases he : (lowPorts container).isEmpty with
    | true =>
        have hnil : lowPorts container = [] := List.isEmpty_iff.1 he
        simp only [if_true]
        constructor
        · intro _ port hport hlow
          have hmem : port ∈ lowPorts container :=
            List.mem_filter.2 ⟨hport, (usesLowHostPort_iff port).2 hlow⟩
          rw [hnil] at hmem
          cases hmem
        · intro _
          exact ⟨_, List.mem_singleton.2 rfl, rfl⟩
    | false =>
        simp only [Bool.false_eq_true, if_false]
        constructor
        · rintro ⟨v, hv, hpassed⟩
          obtain ⟨port, _, rfl⟩ := List.mem_map.1 hv
          exact absurd hpassed (portVerdictSpec_status_ne_passed r pod namespaces port)
        · intro hnone
          exfalso
          cases hl : lowPorts container with
          | nil => simp [hl] at he
          | cons port rest =>
              have hmem : port ∈ lowPorts container := by rw [hl]; exact List.mem_cons_self _ _
              obtain ⟨hport, hlow⟩ := List.mem_filter.1 hmem
              exact hnone port hport ((usesLowHostPort_iff port).1 hlow)
  · intro pod container v hv hpassed
    unfold containerVerdictsSpec at hv
    split at hv
    · rw [List.mem_singleton.1 hv]
    · obtain ⟨port, _, rfl⟩ := List.mem_map.1 hv
      exact absurd hpassed (portVerdictSpec_status_ne_passed r pod namespaces port)
  · intro pod container
    rw [hfilter]
    unfold containerVerdictsSpec
    cases he : (lowPorts container).isEmpty with
    | true =>
        have hnil : lowPorts container = [] := List.isEmpty_iff.1 he
        simp [hnil]
    | false =>
        simp only [Bool.false_eq_true, if_false]
        apply List.filter_eq_self.2
        intro v hv
        obtain ⟨port, _, rfl⟩ := List.mem_map.1 hv
        simpa using portVerdictSpec_status_ne_passed r pod namespaces port
  · intro pod port h
    simp [portVerdictSpec, h]
  · intro pod port h
    simp [portVerdictSpec, h]
  · intro pod ns port hfound
    simp only [portVerdictSpec, namespaceOf, hfound]
  · intro pod port hmissing
    simp only [portVerdictSpec, namespaceOf, hmissing, accepted_nil_labels,
      Bool.false_eq_true, if_false]

/-- Witness for C17: with options accepting host ports 80 and 443 for `app=web` pods in
`tier=edge` namespaces, the container with host ports 80, 443, 22, 8080 and 0 gets an
Accepted verdict with the default message, an Accepted verdict with the justification and
a Failed verdict; the container without ports gets Passed; the same pod labels in a
namespace missing from the map get Failed. -/
theorem checkPods_verdicts_match_messages_witness :
    (checkPods { Options := some edgeOptions } [edgePod, strayPod] edgeNamespaces).map verdict =
      [(Status.Accepted, "Container accepted to use hostPort < 1024."),
       (Status.Accepted, "TLS ingress"),
       (Status.Failed, "Container uses hostPort < 1024."),
       (Status.Passed, "Container does not use hostPort < 1024."),
       (Status.Failed, "Container uses hostPort < 1024.")] :=
  (checkPods_verdicts_match_messages { Options := some edgeOptions } [edgePod, strayPod]
    edgeNamespaces).1.trans (by decide)

theorem acceptedLoop_eq_find (pod : SpecPod) (ns : Namespace) (hostPort : Int) :
    ∀ entries : List AcceptedPods242414,
      acceptedLoop pod ns hostPort entries =
        match entries.find? (acceptsEntry pod ns hostPort) with
        | some acceptedPod => (true, acceptedPod.Justification)
        | none => (false, "") := by
  intro entries
  induction entries with
  | nil => rfl
  | cons e es ih =>
      have hany : (e.Ports.any fun acceptedHostPort => acceptedHostPort == hostPort) =
          decide (hostPort ∈ e.Ports) := by
        rw [Bool.eq_iff_iff]
        simp only [List.any_eq_true, beq_iff_eq, decide_eq_true_eq]
        constructor
        · rintro ⟨x, hx, rfl⟩
          exact hx
        · intro h
          exact ⟨hostPort, h, rfl⟩
      unfold acceptedLoop
      rw [List.find?_cons, ih, hany]
      unfold acceptsEntry
      cases MatchLabels pod.Labels e.PodMatchLabels <;>
        cases MatchLabels ns.Labels e.NamespaceMatchLabels <;>
        cases decide (hostPort ∈ e.Ports) <;> simp

/-- C18: `accepted` returns (false, "") when `Options` is nil; otherwise it returns true
exactly when some `AcceptedPods` entry matches the pod labels and the namespace labels and
lists the host port, with the justification of the first such entry; the Accepted check
result carries that justification, or the default message when it is empty. -/
theorem accepted_spec (r : Rule242414) (pod : SpecPod) (ns : Namespace) (hostPort : Int) :
    (r.Options = none → accepted r pod ns hostPort = (false, "")) ∧
    (∀ options, r.Options = some options →
      accepted r pod ns hostPort =
        (match options.AcceptedPods.find? (acceptsEntry pod ns hostPort) with
          | some acceptedPod => (true, acceptedPod.Justification)
          | none => (false, "")) ∧
      ((accepted r pod ns hostPort).1 = true ↔
        ∃ acceptedPod, acceptedPod ∈ options.AcceptedPods ∧
          MatchLabels pod.Labels acceptedPod.PodMatchLabels = true ∧
          MatchLabels ns.Labels acceptedPod.NamespaceMatchLabels = true ∧
          hostPort ∈ acceptedPod.Ports)) ∧
    (∀ (namespaces : List (String × Namespace)) (container : Container) (st : CheckState)
        (port : ContainerPort) (justification : String),
      usesLowHostPort port = true →
      accepted r pod (namespaceOf namespaces pod.Namespace) port.HostPort =
        (true, justification) →
      (portStep r pod namespaces container st port).checkResults =
        st.checkResults ++
          [{ Status := Status.Accepted,
             Message := if justification = "" then "Container accepted to use hostPort < 1024."
               else justification,
             Target := st.target.With "details"
               ("containerName: " ++ container.Name ++ ", port: " ++
                 toString port.HostPort) }]) := by
  refine ⟨?_, ?_, ?_⟩
  · intro h
    simp [accepted, h]
  · intro options h
    have heq : accepted r pod ns hostPort =
        (match options.AcceptedPods.find? (acceptsEntry pod ns hostPort) with
          | some acceptedPod => (true, acceptedPod.Justification)
          | none => (false, "")) := by
      simp only [accepted, h]
      exact acceptedLoop_eq_find pod ns hostPort options.AcceptedPods
    refine ⟨heq, ?_⟩
    rw [heq]
    cases hf : options.AcceptedPods.find? (acceptsEntry pod ns hostPort) with
    | none =>
        simp only [Bool.false_eq_true, false_iff, not_exists, not_and]
        intro e he h1 h2 h3
        have := List.find?_eq_none.1 hf e he
        simp [acceptsEntry, h1, h2, h3] at this
    | some e =>
        simp only [true_iff]
        have hp := List.find?_some hf
        have hm := List.mem_of_find?_eq_some hf
        simp only [acceptsEntry, Bool.and_eq_true, decide_eq_true_eq] at hp
        exact ⟨e, hm, hp.1.1, hp.1.2, hp.2⟩
  · intro namespaces container st port justification hlow hacc
    unfold portStep
    simp only [hlow, if_true, hacc, AcceptedCheckResult]
    by_cases hj : justification = "" <;> simp [hj]

/-- Witness for C18: host port 80 is accepted by the first matching entry, whose
justification is empty; host port 443 by the second; host port 22 by none. -/
theorem accepted_spec_witness :
    accepted { Options := some edgeOptions } twoContainerPod edgeNamespace 80 = (true, "") ∧
    accepted { Options := some edgeOptions } twoContainerPod edgeNamespace 443 =
      (true, "TLS ingress") ∧
    accepted { Options := some edgeOptions } twoContainerPod edgeNamespace 22 = (false, "") ∧
    accepted { Options := none } twoContainerPod edgeNamespace 80 = (false, "") :=
  ⟨((accepted_spec { Options := some edgeOptions } twoContainerPod edgeNamespace 80).2.1
      edgeOptions rfl).1.trans (by decide),
    by decide, by decide,
    (accepted_spec { Options := none } twoContainerPod edgeNamespace 80).1 rfl⟩

/-- C19, evaluated: a pod whose first container uses host port 80 and whose second
container has no ports.  The Passed result of the second container carries the details
entry recorded for the first one. -/
theorem checkPods_passed_target_carries_details :
    checkPods { Options := none } [twoContainerPod] [] =
      [{ Status := Status.Failed, Message := "Container uses hostPort < 1024.",
         Target := [("name", "web"), ("namespace", "default"), ("kind", "pod"),
                    ("details", "containerName: nginx, port: 80")] },
       { Status := Status.Passed, Message := "Container does not use hostPort < 1024.",
         Target := [("name", "web"), ("namespace", "default"), ("kind", "pod"),
                    ("details", "containerName: nginx, port: 80")] }] ∧
    (twoContainerPod.Containers.map (fun c => c.Name)) = ["nginx", "sidecar"] := by
  decide

theorem containerVerdictsSpec_length (r : Rule242414) (pod : SpecPod)
    (namespaces : List (String × Namespace)) (container : Container) :
    (containerVerdictsSpec r pod namespaces container).length =
      max 1 (lowPorts container).length := by
  unfold containerVerdictsSpec
  cases hl : lowPorts container with
  | nil => simp
  | cons p ps =>
      simp only [List.isEmpty_cons, Bool.false_eq_true, if_false, List.length_map,
        List.length_cons]
      omega

theorem length_flatMap_sum {α β : Type} (f : α → List β) (l : List α) :
    (l.flatMap f).length = (l.map (fun a => (f a).length)).sum := by
  induction l with
  | nil => rfl
  | cons a as ih => simp [ih]

/-- C20: `checkPods` emits results in pod order, then container order, then port order,
`max 1 k` results per container where `k` is the number of its ports whose host port is
non-zero and below 1024; the result length is the sum of these numbers, a pod without
containers contributes nothing and an empty pod list gives an empty result. -/
theorem checkPods_order_and_count (r : Rule242414) (pods : List SpecPod)
    (namespaces : List (String × Namespace)) :
    (checkPods r pods namespaces).length =
      (pods.map (fun pod =>
        (pod.Containers.map (fun container =>
          max 1 (container.Ports.filter
            (fun port => decide (port.HostPort ≠ 0 ∧ port.HostPort < 1024))).length)).sum)).sum ∧
    (∀ ps qs, checkPods r (ps ++ qs) namespaces =
      checkPods r ps namespaces ++ checkPods r qs namespaces) ∧
    (∀ pod, (checkPods r [pod] namespaces).map verdict =
      pod.Containers.flatMap (fun container =>
        if (container.Ports.filter
            (fun port => decide (port.HostPort ≠ 0 ∧ port.HostPort < 1024))).isEmpty then
          [(Status.Passed, "Container does not use hostPort < 1024.")]
        else
          (container.Ports.filter
            (fun port => decide (port.HostPort ≠ 0 ∧ port.HostPort < 1024))).map
            (portVerdictSpec r pod namespaces))) ∧
    (∀ (pod : SpecPod) (container : Container),
      (checkPods r [{ pod with Containers := [container] }] namespaces).length =
        max 1 (container.Ports.filter
          (fun port => decide (port.HostPort ≠ 0 ∧ port.HostPort < 1024))).length) ∧
    (∀ pod container, (containerVerdictsSpec r pod namespaces container).length =
      max 1 (container.Ports.filter
        (fun port => decide (port.HostPort ≠ 0 ∧ port.HostPort < 1024))).length) ∧
    (∀ pod, pod.Containers = [] → checkPods r [pod] namespaces = []) ∧
    checkPods r [] namespaces = [] := by
  have hlength : ∀ ps : List SpecPod, (checkPods r ps namespaces).length =
      (ps.map (fun pod =>
        (pod.Containers.map (fun container =>
          max 1 (container.Ports.filter
            (fun port => decide (port.HostPort ≠ 0 ∧ port.HostPort < 1024))).length)).sum)).sum := by
    intro ps
    have h := congrArg List.length (checkPods_verdicts r ps namespaces)
    rw [List.length_map] at h
    rw [h]
    unfold checkPodsVerdictsSpec
    rw [length_flatMap_sum]
    congr 1
    apply List.map_congr_left
    intro pod _
    rw [length_flatMap_sum]
    congr 1
    apply List.map_congr_left
    intro container _
    rw [lowPorts_filter_eq]
    exact containerVerdictsSpec_length r pod namespaces container
  refine ⟨hlength pods, ?_, ?_, ?_, ?_, ?_, rfl⟩
  · intro ps qs
    simp only [checkPods_eq_flatMap, List.flatMap_append]
  · intro pod
    rw [checkPods_verdicts]
    simp only [checkPodsVerdictsSpec, List.flatMap_cons, List.flatMap_nil, List.append_nil,
      lowPorts_filter_eq]
    rfl
  · intro pod container
    rw [hlength]
    simp
  · intro pod container
    rw [lowPorts_filter_eq]
    exact containerVerdictsSpec_length r pod namespaces container
  · intro pod h
    simp [checkPods, podStep, h]

/-- Witness for C20: a pod whose containers have the host ports 80 and 443, the host port
8080, and no ports gives two results, then one, then one; a pod without containers gives
none. -/
theorem checkPods_order_and_count_witness :
    (checkPods { Options := none } [portsPod, emptyPod] []).length = 4 ∧
    (checkPods { Options := none } [portsPod, emptyPod] []).map verdict =
      [(Status.Failed, "Container uses hostPort < 1024."),
       (Status.Failed, "Container uses hostPort < 1024."),
       (Status.Passed, "Container does not use hostPort < 1024."),
       (Status.Passed, "Container does not use hostPort < 1024.")] ∧
    ((checkPods { Options := none } [portsPod, emptyPod] []).take 2).map
        (fun cr => cr.Target.lookup "details") =
      [some "containerName: a, port: 80", some "containerName: a, port: 443"] :=
  ⟨(checkPods_order_and_count { Options := none } [portsPod, emptyPod] []).1.trans (by decide),
    by decide, by decide⟩

/-! ## The rule registry -/

theorem skipOverride_enabled (ruleOptions : List (String × RuleOptionsConfig)) (rule : Rule)
    (opt : RuleOptionsConfig) (skip : RuleOptionSkipConfig)
    (hfound : ruleOptions.lookup rule.ID = some opt) (hskip : opt.Skip = some skip)
    (henabled : skip.Enabled = true) :
    skipOverride ruleOptions rule =
      Rule.skip rule.ID rule.Name skip.Justification Status.Accepted := by
  simp [skipOverride, hfound, hskip, henabled, NewSkipRule]

theorem skipOverride_other (ruleOptions : List (String × RuleOptionsConfig)) (rule : Rule)
    (hno : ¬ ∃ opt skip, ruleOptions.lookup rule.ID = some opt ∧ opt.Skip = some skip ∧
      skip.Enabled = true) :
    skipOverride ruleOptions rule = rule := by
  unfold skipOverride
  cases hfound : ruleOptions.lookup rule.ID with
  | none => rfl
  | some opt =>
      cases hskip : opt.Skip with
      | none => simp only [hskip]
      | some skip =>
          cases henabled : skip.Enabled with
          | false => simp only [hskip, henabled, Bool.false_eq_true, if_false]
          | true => exact absurd ⟨opt, skip, hfound, hskip, henabled⟩ hno

/-- C11: after the skip-override loop, a rule whose ID has a rule-options entry with an
enabled skip is a SkipRule with the same ID and Name, the operator's justification and
status Accepted, whatever kind of rule was assembled there; every other rule is left as
assembled; and the list handed to `AddRules` is this overridden list. -/
theorem skip_override_replaces_rule (env : RegistryEnv)
    (ruleOptions : List (String × RuleOptionsConfig)) (assembled : List Rule) :
    (∀ (i : Nat) (rule : Rule) (opt : RuleOptionsConfig) (skip : RuleOptionSkipConfig),
      assembled[i]? = some rule → ruleOptions.lookup rule.ID = some opt →
      opt.Skip = some skip → skip.Enabled = true →
      (applySkipOverrides ruleOptions assembled)[i]? =
          some (Rule.skip rule.ID rule.Name skip.Justification Status.Accepted) ∧
        (Rule.skip rule.ID rule.Name skip.Justification Status.Accepted).ID = rule.ID ∧
        (Rule.skip rule.ID rule.Name skip.Justification Status.Accepted).Name = rule.Name) ∧
    (∀ (i : Nat) (rule : Rule), assembled[i]? = some rule →
      (¬ ∃ opt skip, ruleOptions.lookup rule.ID = some opt ∧ opt.Skip = some skip ∧
        skip.Enabled = true) →
      (applySkipOverrides ruleOptions assembled)[i]? = some rule) ∧
    (∀ registered, registered ∈ (registerAssembled env ruleOptions assembled).2 →
      registered = applySkipOverrides ruleOptions assembled) := by
  refine ⟨?_, ?_, ?_⟩
  · intro i rule opt skip hi hfound hskip henabled
    refine ⟨?_, rfl, rfl⟩
    simp only [applySkipOverrides, List.getElem?_map, hi, Option.map_some']
    rw [skipOverride_enabled ruleOptions rule opt skip hfound hskip henabled]
  · intro i rule hi hno
    simp only [applySkipOverrides, List.getElem?_map, hi, Option.map_some']
    rw [skipOverride_other ruleOptions rule hno]
  · intro registered hmem
    unfold registerAssembled at hmem
    simp only [] at hmem
    split at hmem
    · cases hmem
    · exact List.mem_singleton.1 hmem

/-- Witness for C11: a retryable-decorated rule and a compiled-in Skipped SkipRule are
replaced by Accepted SkipRules with their ID and Name; the concrete rule, whose skip entry
is disabled, stays. -/
theorem skip_override_replaces_rule_witness :
    (applySkipOverrides skipTwo threeKinds)[1]? =
      some (Rule.skip "242400" "alpha APIs must be off" "N/A" Status.Accepted) ∧
    (applySkipOverrides skipTwo threeKinds)[2]? =
      some (Rule.skip "242384" "The Kubernetes Scheduler must have secure binding"
        "accepted risk" Status.Accepted) ∧
    (applySkipOverrides skipTwo threeKinds)[0]? =
      some (Rule.concrete "242376" "etcd must be secured" none) :=
  ⟨((skip_override_replaces_rule RegistryEnv.simple skipTwo threeKinds).1 1
      (retry.New (.concrete "242400" "alpha APIs must be off" none) rcFileChecks 1)
      { Skip := some { Enabled := true, Justification := "N/A" }, Args := none }
      { Enabled := true, Justification := "N/A" } rfl (by decide) rfl rfl).1,
    ((skip_override_replaces_rule RegistryEnv.simple skipTwo threeKinds).1 2
      (NewSkipRule "242384" "The Kubernetes Scheduler must have secure binding"
        "not applicable" Status.Skipped)
      { Skip := some { Enabled := true, Justification := "accepted risk" }, Args := none }
      { Enabled := true, Justification := "accepted risk" } rfl (by decide) rfl rfl).1,
    (skip_override_replaces_rule RegistryEnv.simple skipTwo threeKinds).2.1 0
      (.concrete "242376" "etcd must be secured" none) rfl (by
        rintro ⟨opt, skip, hfound, hskip, henabled⟩
        have h : List.lookup "242376" skipTwo = some ⟨some ⟨false, "unused"⟩, none⟩ := by
          decide
        simp only [Rule.ID] at hfound
        rw [h] at hfound
        cases hfound
        simp only [Option.some.injEq] at hskip
        subst hskip
        simp at henabled)⟩

/-- C12: when the assembled list does not have 91 rules, registration returns the error
"revision expects 91 registered rules, but got: n" and `AddRules` is not called; `AddRules`
is only ever called with a list of exactly 91 rules, and is called once when the assembled
list has 91. -/
theorem cardinality_check (env : RegistryEnv) (ruleOptions : List (String × RuleOptionsConfig))
    (assembled : List Rule) :
    (assembled.length ≠ 91 →
      registerAssembled env ruleOptions assembled =
        (some (GoError.leaf ("revision expects 91 registered rules, but got: " ++
          toString assembled.length) false), [])) ∧
    (∀ registered, registered ∈ (registerAssembled env ruleOptions assembled).2 →
      registered.length = 91) ∧
    (assembled.length = 91 →
      registerAssembled env ruleOptions assembled =
        (env.addRules (applySkipOverrides ruleOptions assembled),
          [applySkipOverrides ruleOptions assembled])) := by
  have hlen : (applySkipOverrides ruleOptions assembled).length = assembled.length := by
    simp [applySkipOverrides]
  refine ⟨?_, ?_, ?_⟩
  · intro h
    simp [registerAssembled, hlen, h, errorNew]
  · intro registered hmem
    unfold registerAssembled at hmem
    simp only [] at hmem
    split at hmem
    · cases hmem
    · rename_i h
      rw [List.mem_singleton.1 hmem]
      simpa using h
  · intro h
    simp [registerAssembled, hlen, h]

/-- Witness for C12: an assembled list of 90 rules. -/
theorem cardinality_check_witness :
    registerAssembled RegistryEnv.simple []
        (List.replicate 90 (Rule.concrete "242376" "etcd must be secured" none)) =
      (some (GoError.leaf ("revision expects 91 registered rules, but got: " ++
        toString (List.replicate 90
          (Rule.concrete "242376" "etcd must be secured" none)).length) false), []) ∧
    toString (List.replicate 90 (Rule.concrete "242376" "etcd must be secured" none)).length
      = "90" :=
  ⟨(cardinality_check RegistryEnv.simple []
      (List.replicate 90 (Rule.concrete "242376" "etcd must be secured" none))).1 (by decide),
    by decide⟩

theorem parseRuleOptions_fails (env : RegistryEnv)
    (ruleOptions : List (String × RuleOptionsConfig)) :
    ∀ calls : List (String × OptionType),
      (∃ id O, (id, O) ∈ calls ∧
        (getV2R1OptionOrNil env O (argsOf ruleOptions id)).2 ≠ none) →
      ∃ id O e, (id, O) ∈ calls ∧
        (getV2R1OptionOrNil env O (argsOf ruleOptions id)).2 = some e ∧
        parseRuleOptions env ruleOptions calls =
          .error (GoError.leaf ("rule option " ++ id ++ " error: " ++ e.Error) false) := by
  intro calls
  induction calls with
  | nil =>
      rintro ⟨id, O, hmem, _⟩
      cases hmem
  | cons hd tl ih =>
      obtain ⟨id0, O0⟩ := hd
      rintro ⟨id, O, hmem, hfail⟩
      rcases hres : getV2R1OptionOrNil env O0 (argsOf ruleOptions id0) with ⟨opts, err⟩
      cases err with
      | some e =>
          refine ⟨id0, O0, e, List.mem_cons_self _ _, by rw [hres], ?_⟩
          simp only [parseRuleOptions, hres, errorNew]
      | none =>
          have htl : ∃ id O, (id, O) ∈ tl ∧
              (getV2R1OptionOrNil env O (argsOf ruleOptions id)).2 ≠ none := by
            rcases List.mem_cons.1 hmem with heq | hmem'
            · cases heq
              rw [hres] at hfail
              exact absurd rfl hfail
            · exact ⟨id, O, hmem', hfail⟩
          obtain ⟨id1, O1, e, hmem1, hfail1, hparse⟩ := ih htl
          refine ⟨id1, O1, e, List.mem_cons_of_mem _ hmem1, hfail1, ?_⟩
          simp only [parseRuleOptions, hres, hparse]

theorem registerV2R1Rules_after_setup (env : RegistryEnv) (r : Ruleset)
    (ruleOptions : List (String × RuleOptionsConfig)) (hsetup : env.setupOk) :
    registerV2R1Rules env r ruleOptions =
      match parseRuleOptions env ruleOptions v2r1OptionRules with
      | .error err => (some err, [])
      | .ok parsed => registerAssembled env ruleOptions (v2r1Rules env r parsed) := by
  obtain ⟨h1, h2, h3, version, h4, h5⟩ := hsetup
  unfold registerV2R1Rules
  simp only [h1, h2, h3, h4, h5, NewSimplePodContext]

/-- C13: `getV2R1OptionOrNil` returns (nil, nil) for nil args and parses non-nil args;
`parseV2R1Options` returns the parsed options exactly when marshaling, unmarshaling and,
where the option type exposes it, validation succeed, and nil options with the error of
the failing step otherwise; when one of the ten option parses fails, `registerV2R1Rules`
returns the error "rule option <ID> error: ..." and does not call `AddRules`. -/
theorem option_parsing_aborts_registration (env : RegistryEnv) (r : Ruleset)
    (ruleOptions : List (String × RuleOptionsConfig)) :
    (∀ O, getV2R1OptionOrNil env O none = (none, none)) ∧
    (∀ O args, getV2R1OptionOrNil env O (some args) = parseV2R1Options env O args) ∧
    (∀ O args parsed, parseV2R1Options env O args = (some parsed, none) ↔
      ∃ optionsByte, env.jsonMarshal args = .ok optionsByte ∧
        env.jsonUnmarshal O optionsByte = .ok parsed ∧
        ∀ validate, env.validate O = some validate → validate parsed = none) ∧
    (∀ O args, (∃ parsed, parseV2R1Options env O args = (some parsed, none)) ∨
      ∃ e, parseV2R1Options env O args = (none, some e) ∧
        (env.jsonMarshal args = .error e ∨
          (∃ optionsByte, env.jsonMarshal args = .ok optionsByte ∧
            env.jsonUnmarshal O optionsByte = .error e) ∨
          ∃ optionsByte parsed validate, env.jsonMarshal args = .ok optionsByte ∧
            env.jsonUnmarshal O optionsByte = .ok parsed ∧
            env.validate O = some validate ∧ validate parsed = some e)) ∧
    v2r1OptionRules.map Prod.fst =
      ["242400", "242414", "242415", "242445", "242446", "242451", "242466", "242467",
        "245543", "254800"] ∧
    (env.setupOk →
      (∃ id O, (id, O) ∈ v2r1OptionRules ∧
        (getV2R1OptionOrNil env O (argsOf ruleOptions id)).2 ≠ none) →
      ∃ id O e, (id, O) ∈ v2r1OptionRules ∧
        (getV2R1OptionOrNil env O (argsOf ruleOptions id)).2 = some e ∧
        registerV2R1Rules env r ruleOptions =
          (some (GoError.leaf ("rule option " ++ id ++ " error: " ++ e.Error) false), [])) := by
  refine ⟨fun _ => rfl, fun _ _ => rfl, ?_, ?_, rfl, ?_⟩
  · intro O args parsed
    cases hm : env.jsonMarshal args with
    | error e =>
        have hp : parseV2R1Options env O args = (none, some e) := by
          simp only [parseV2R1Options, hm]
        simp [hp]
    | ok optionsByte =>
        cases hu : env.jsonUnmarshal O optionsByte with
        | error e =>
            have hp : parseV2R1Options env O args = (none, some e) := by
              simp only [parseV2R1Options, hm, hu]
            simp [hp, hu]
        | ok parsed0 =>
            cases hv : env.validate O with
            | none =>
                have hp : parseV2R1Options env O args = (some parsed0, none) := by
                  simp only [parseV2R1Options, hm, hu, hv]
                simp [hp, hu]
            | some validate =>
                cases hr : validate parsed0 with
                | none =>
                    have hp : parseV2R1Options env O args = (some parsed0, none) := by
                      simp only [parseV2R1Options, hm, hu, hv, hr]
                    rw [hp]
                    constructor
                    · intro h
                      simp only [Prod.mk.injEq, Option.some.injEq, and_true] at h
                      subst h
                      exact ⟨optionsByte, rfl, hu, fun v hv' => by cases hv'; exact hr⟩
                    · rintro ⟨bytes, hb, hub, _⟩
                      cases hb
                      rw [hu] at hub
                      cases hub
                      rfl
                | some e =>
                    have hp : parseV2R1Options env O args = (none, some e) := by
                      simp only [parseV2R1Options, hm, hu, hv, hr]
                    rw [hp]
                    constructor
                    · intro h
                      simp at h
                    · rintro ⟨bytes, hb, hub, hval⟩
                      cases hb
                      rw [hu] at hub
                      cases hub
                      have := hval validate rfl
                      rw [hr] at this
                      cases this
  · intro O args
    cases hm : env.jsonMarshal args with
    | error e =>
        exact Or.inr ⟨e, by simp only [parseV2R1Options, hm], Or.inl rfl⟩
    | ok optionsByte =>
        cases hu : env.jsonUnmarshal O optionsByte with
        | error e =>
            exact Or.inr ⟨e, by simp only [parseV2R1Options, hm, hu],
              Or.inr (Or.inl ⟨optionsByte, rfl, hu⟩)⟩
        | ok parsed0 =>
            cases hv : env.validate O with
            | none =>
                exact Or.inl ⟨parsed0, by simp only [parseV2R1Options, hm, hu, hv]⟩
            | some validate =>
                cases hr : validate parsed0 with
                | none =>
                    exact Or.inl ⟨parsed0, by simp only [parseV2R1Options, hm, hu, hv, hr]⟩
                | some e =>
                    exact Or.inr ⟨e, by simp only [parseV2R1Options, hm, hu, hv, hr],
                      Or.inr (Or.inr ⟨optionsByte, parsed0, validate, rfl, hu, rfl, hr⟩)⟩
  · intro hsetup hfail
    obtain ⟨id, O, e, hmem, hfail1, hparse⟩ :=
      parseRuleOptions_fails env ruleOptions v2r1OptionRules hfail
    refine ⟨id, O, e, hmem, hfail1, ?_⟩
    rw [registerV2R1Rules_after_setup env r ruleOptions hsetup, hparse]

/-- Witness for C13: the arguments configured for rule 242466 fail validation. -/
theorem option_parsing_aborts_registration_witness :
    registerV2R1Rules RegistryEnv.simple demoRuleset invalid242466 =
      (some (GoError.leaf "rule option 242466 error: invalid kube-proxy options" false), []) ∧
    ∃ id O e, (id, O) ∈ v2r1OptionRules ∧
      (getV2R1OptionOrNil RegistryEnv.simple O (argsOf invalid242466 id)).2 = some e ∧
      registerV2R1Rules RegistryEnv.simple demoRuleset invalid242466 =
        (some (GoError.leaf ("rule option " ++ id ++ " error: " ++ e.Error) false), []) :=
  ⟨by decide,
    (option_parsing_aborts_registration RegistryEnv.simple demoRuleset invalid242466).2.2.2.2.2
      ⟨rfl, rfl, rfl, "v1.28.2", rfl, rfl⟩
      ⟨"242466", OptionType.KubeProxyOptions, by decide, by decide⟩⟩

theorem skipOverride_shape (ruleOptions : List (String × RuleOptionsConfig)) (rule : Rule) :
    (skipOverride ruleOptions rule).ID = rule.ID ∧
    (skipOverride ruleOptions rule).Name = rule.Name ∧
    (skipOverride ruleOptions rule = rule ∨
      ∃ justification, skipOverride ruleOptions rule =
        Rule.skip rule.ID rule.Name justification Status.Accepted) := by
  by_cases h : ∃ opt skip, ruleOptions.lookup rule.ID = some opt ∧ opt.Skip = some skip ∧
      skip.Enabled = true
  · obtain ⟨opt, skip, hfound, hskip, henabled⟩ := h
    rw [skipOverride_enabled ruleOptions rule opt skip hfound hskip henabled]
    exact ⟨rfl, rfl, Or.inr ⟨skip.Justification, rfl⟩⟩
  · rw [skipOverride_other ruleOptions rule h]
    exact ⟨rfl, rfl, Or.inl rfl⟩

/-- C21: the skip-override loop keeps the shape of the rule list: the list has the same
length afterwards, and at every index the rule has the ID and the Name of the rule
assembled there; it is either that rule or an Accepted SkipRule with that ID and Name. -/
theorem skip_override_preserves_shape (ruleOptions : List (String × RuleOptionsConfig))
    (assembled : List Rule) :
    (applySkipOverrides ruleOptions assembled).length = assembled.length ∧
    (applySkipOverrides ruleOptions assembled).map Rule.ID = assembled.map Rule.ID ∧
    (applySkipOverrides ruleOptions assembled).map Rule.Name = assembled.map Rule.Name ∧
    (∀ (i : Nat) (rule : Rule), assembled[i]? = some rule →
      ∃ after, (applySkipOverrides ruleOptions assembled)[i]? = some after ∧
        after.ID = rule.ID ∧ after.Name = rule.Name ∧
        (after = rule ∨
          ∃ justification, after = Rule.skip rule.ID rule.Name justification Status.Accepted)) ∧
    (∀ i : Nat, assembled[i]? = none → (applySkipOverrides ruleOptions assembled)[i]? = none) := by
  refine ⟨?_, ?_, ?_, ?_, ?_⟩
  · simp [applySkipOverrides]
  · simp only [applySkipOverrides, List.map_map]
    apply List.map_congr_left
    intro rule _
    exact (skipOverride_shape ruleOptions rule).1
  · simp only [applySkipOverrides, List.map_map]
    apply List.map_congr_left
    intro rule _
    exact (skipOverride_shape ruleOptions rule).2.1
  · intro i rule hi
    obtain ⟨h1, h2, h3⟩ := skipOverride_shape ruleOptions rule
    refine ⟨skipOverride ruleOptions rule, ?_, h1, h2, h3⟩
    simp only [applySkipOverrides, List.getElem?_map, hi, Option.map_some']
  · intro i hi
    simp only [applySkipOverrides, List.getElem?_map, hi, Option.map_none']

/-- Witness for C21: three rules of the three kinds, two of them skipped by the operator;
the IDs and Names stay in place. -/
theorem skip_override_preserves_shape_witness :
    (applySkipOverrides skipTwo threeKinds).length = 3 ∧
    (applySkipOverrides skipTwo threeKinds).map Rule.ID = ["242376", "242400", "242384"] ∧
    (applySkipOverrides skipTwo threeKinds).map Rule.Name =
      ["etcd must be secured", "alpha APIs must be off",
        "The Kubernetes Scheduler must have secure binding"] :=
  ⟨(skip_override_preserves_shape skipTwo threeKinds).1.trans (by decide),
    (skip_override_preserves_shape skipTwo threeKinds).2.1.trans (by decide),
    (skip_override_preserves_shape skipTwo threeKinds).2.2.1.trans (by decide)⟩

theorem v2r1Rules_length (env : RegistryEnv) (r : Ruleset)
    (parsed : List (String × Option String)) : (v2r1Rules env r parsed).length = 91 := rfl

theorem parseRuleOptions_succeeds (env : RegistryEnv)
    (ruleOptions : List (String × RuleOptionsConfig)) :
    ∀ calls : List (String × OptionType),
      (∀ id O, (id, O) ∈ calls →
        (getV2R1OptionOrNil env O (argsOf ruleOptions id)).2 = none) →
      ∃ parsed, parseRuleOptions env ruleOptions calls = .ok parsed := by
  intro calls
  induction calls with
  | nil => intro _; exact ⟨[], rfl⟩
  | cons hd tl ih =>
      obtain ⟨id0, O0⟩ := hd
      intro hall
      obtain ⟨parsed, hparsed⟩ := ih (fun id O hmem => hall id O (List.mem_cons_of_mem _ hmem))
      have h0 := hall id0 O0 (List.mem_cons_self _ _)
      rcases hres : getV2R1OptionOrNil env O0 (argsOf ruleOptions id0) with ⟨opts, err⟩
      rw [hres] at h0
      simp only at h0
      subst h0
      exact ⟨(id0, opts) :: parsed, by simp only [parseRuleOptions, hres, hparsed]⟩

/-- C22: the rule list literal has 91 entries whatever the clients, the ruleset and the
parsed options are; hence, once the clients are built and the ten option parses have
succeeded, `registerV2R1Rules` does not take the cardinality error branch: it calls
`AddRules` exactly once, with the 91 rules left by the skip-override loop, and returns
what `AddRules` returns. -/
theorem rule_literal_has_91_entries (env : RegistryEnv) (r : Ruleset)
    (ruleOptions : List (String × RuleOptionsConfig)) :
    (∀ parsed, (v2r1Rules env r parsed).length = 91) ∧
    (∀ parsed, (applySkipOverrides ruleOptions (v2r1Rules env r parsed)).length = 91) ∧
    (env.setupOk →
      (∀ id O, (id, O) ∈ v2r1OptionRules →
        (getV2R1OptionOrNil env O (argsOf ruleOptions id)).2 = none) →
      ∃ parsed, parseRuleOptions env ruleOptions v2r1OptionRules = .ok parsed ∧
        registerV2R1Rules env r ruleOptions =
          (env.addRules (applySkipOverrides ruleOptions (v2r1Rules env r parsed)),
            [applySkipOverrides ruleOptions (v2r1Rules env r parsed)])) ∧
    (env.setupOk → ∀ n : Nat,
      (∃ registered, (registerV2R1Rules env r ruleOptions).2 = [registered]) ∨
      ((registerV2R1Rules env r ruleOptions).2 = [] ∧
        ∃ id O e, (id, O) ∈ v2r1OptionRules ∧
          (getV2R1OptionOrNil env O (argsOf ruleOptions id)).2 = some e ∧
          (registerV2R1Rules env r ruleOptions).1 =
            some (GoError.leaf ("rule option " ++ id ++ " error: " ++ e.Error) false) ∧
          (registerV2R1Rules env r ruleOptions).1 ≠
            some (GoError.leaf ("revision expects 91 registered rules, but got: " ++
              toString n) false))) := by
  have hlen : ∀ parsed, (applySkipOverrides ruleOptions (v2r1Rules env r parsed)).length = 91 := by
    intro parsed
    simp only [applySkipOverrides, List.length_map]
    exact v2r1Rules_length env r parsed
  have hreach : env.setupOk → ∀ parsed,
      parseRuleOptions env ruleOptions v2r1OptionRules = .ok parsed →
      registerV2R1Rules env r ruleOptions =
        (env.addRules (applySkipOverrides ruleOptions (v2r1Rules env r parsed)),
          [applySkipOverrides ruleOptions (v2r1Rules env r parsed)]) := by
    intro hsetup parsed hparse
    rw [registerV2R1Rules_after_setup env r ruleOptions hsetup, hparse]
    simp only [registerAssembled, hlen parsed, ne_eq, not_true_eq_false, if_false]
  refine ⟨v2r1Rules_length env r, hlen, ?_, ?_⟩
  · intro hsetup hopts
    obtain ⟨parsed, hparse⟩ := parseRuleOptions_succeeds env ruleOptions v2r1OptionRules hopts
    exact ⟨parsed, hparse, hreach hsetup parsed hparse⟩
  · intro hsetup n
    by_cases hfail : ∃ id O, (id, O) ∈ v2r1OptionRules ∧
        (getV2R1OptionOrNil env O (argsOf ruleOptions id)).2 ≠ none
    · obtain ⟨id, O, e, hmem, hfail1, hparse⟩ :=
        parseRuleOptions_fails env ruleOptions v2r1OptionRules hfail
      have hreg : registerV2R1Rules env r ruleOptions =
          (some (GoError.leaf ("rule option " ++ id ++ " error: " ++ e.Error) false), []) := by
        rw [registerV2R1Rules_after_setup env r ruleOptions hsetup, hparse]
      refine Or.inr ⟨by rw [hreg], id, O, e, hmem, hfail1, by rw [hreg], ?_⟩
      rw [hreg]
      intro heq
      simp only [Option.some.injEq, GoError.leaf.injEq, and_true] at heq
      have hdata := congrArg String.data heq
      simp only [String.data_append] at hdata
      have hhead := congrArg (fun l => l.get? 1) hdata
      simp at hhead
    · have hopts : ∀ id O, (id, O) ∈ v2r1OptionRules →
          (getV2R1OptionOrNil env O (argsOf ruleOptions id)).2 = none := by
        intro id O hmem
        by_contra hne
        exact hfail ⟨id, O, hmem, hne⟩
      obtain ⟨parsed, hparse⟩ := parseRuleOptions_succeeds env ruleOptions v2r1OptionRules hopts
      exact Or.inl ⟨_, by rw [hreach hsetup parsed hparse]⟩

/-- Witness for C22: with working clients and rule options that only skip rule 242400,
registration calls `AddRules` once with 91 rules and returns its answer. -/
theorem rule_literal_has_91_entries_witness :
    (∃ parsed, parseRuleOptions RegistryEnv.simple skip242400 v2r1OptionRules = .ok parsed ∧
      registerV2R1Rules RegistryEnv.simple demoRuleset skip242400 =
        (RegistryEnv.simple.addRules
            (applySkipOverrides skip242400 (v2r1Rules RegistryEnv.simple demoRuleset parsed)),
          [applySkipOverrides skip242400 (v2r1Rules RegistryEnv.simple demoRuleset parsed)])) ∧
    (registerV2R1Rules RegistryEnv.simple demoRuleset skip242400).1 = none ∧
    (registerV2R1Rules RegistryEnv.simple demoRuleset skip242400).2.map List.length = [91] :=
  ⟨(rule_literal_has_91_entries RegistryEnv.simple demoRuleset skip242400).2.2.1
      ⟨rfl, rfl, rfl, "v1.28.2", rfl, rfl⟩
      (fun id O hmem => by
        simp only [v2r1OptionRules, List.mem_cons, Prod.mk.injEq, List.mem_singleton,
          List.not_mem_nil, or_false] at hmem
        rcases hmem with ⟨rfl, rfl⟩ | ⟨rfl, rfl⟩ | ⟨rfl, rfl⟩ | ⟨rfl, rfl⟩ | ⟨rfl, rfl⟩ |
          ⟨rfl, rfl⟩ | ⟨rfl, rfl⟩ | ⟨rfl, rfl⟩ | ⟨rfl, rfl⟩ | ⟨rfl, rfl⟩ <;> rfl),
    by decide, by decide⟩

end Diki
